import Mathlib

/-!
# OpenXR D3D12-on-D3D11 interop layer

A shallow embedding of `framework/dispatch.cpp` (instance creation, rewriting of the
requested extension list) and of `layer.cpp` (the `OpenXrLayer` class: system gate,
session bridge, swapchain image import, frame synchronisation, teardown).

Conventions of the embedding:
* handles, addresses and struct type tags are natural numbers; `0` is the null handle;
* what the platform (D3D11/D3D12/DXGI) and the next handler of the call chain answer
  is an explicit argument of each operation;
* a failing `CHECK_HRCMD`/`CHECK_XRCMD` throws: operations return an `Outcome`;
* `UINT64` arithmetic is taken modulo `2 ^ 64`;
* every call made to the platform or to the next handler is recorded, in order, in a
  list of `Call`s returned by the operation.
-/

namespace D3D12on11

/-! ## Result codes and constants of the OpenXR headers -/

abbrev XrResult := Int

def XR_SUCCESS : XrResult := 0
def XR_ERROR_RUNTIME_FAILURE : XrResult := -2
def XR_ERROR_INITIALIZATION_FAILED : XrResult := -6

/-- The header's success test: `(result) >= 0`. -/
def XR_SUCCEEDED (result : XrResult) : Bool := decide (0 ≤ result)

/-- The header's failure test: `(result) < 0`. -/
def XR_FAILED (result : XrResult) : Bool := decide (result < 0)

def XR_KHR_D3D11_ENABLE_EXTENSION_NAME : String := "XR_KHR_D3D11_enable"
def XR_KHR_D3D12_ENABLE_EXTENSION_NAME : String := "XR_KHR_D3D12_enable"

def XR_TYPE_GRAPHICS_BINDING_D3D11_KHR : Nat := 1000027000
def XR_TYPE_GRAPHICS_BINDING_D3D12_KHR : Nat := 1000028000
def XR_NULL_SYSTEM_ID : Nat := 0
def XR_NULL_HANDLE : Nat := 0
def XR_FORM_FACTOR_HEAD_MOUNTED_DISPLAY : Nat := 1

def XR_LOADER_INTERFACE_STRUCT_API_LAYER_CREATE_INFO : Nat := 4
def XR_LOADER_INTERFACE_STRUCT_API_LAYER_NEXT_INFO : Nat := 5
def XR_API_LAYER_CREATE_INFO_STRUCT_VERSION : Nat := 1
def XR_API_LAYER_NEXT_INFO_STRUCT_VERSION : Nat := 1

/-- How a member function of the layer ends: it returns a result code, or one of its
`CHECK_HRCMD`/`CHECK_XRCMD` steps throws `std::runtime_error`. -/
inductive Outcome where
  | returned (result : XrResult)
  | threw
  deriving DecidableEq, Repr

/-! ## dispatch.cpp: rewriting of the requested extension list -/

/-- The function `std::tolower` in the "C" locale: only `A`..`Z` are changed. -/
def tolower (c : Char) : Char :=
  if 65 ≤ c.toNat ∧ c.toNat ≤ 90 then Char.ofNat (c.toNat + 32) else c

/-- The local `extLowerCase`: `std::transform` of the name with `tolower`. -/
def extLowerCase (ext : String) : String := String.mk (ext.data.map tolower)

/-- The two locals the scanning loop updates. -/
structure ExtensionScan where
  newEnabledExtensionNames : List String
  needUseD3D11 : Bool
  deriving DecidableEq, Repr

/-- One iteration of the `for` loop over `enabledExtensionNames`. -/
def scanExtension (st : ExtensionScan) (ext : String) : ExtensionScan :=
  if extLowerCase ext ≠ "xr_khr_d3d12_enable" then
    { st with newEnabledExtensionNames := st.newEnabledExtensionNames ++ [ext] }
  else
    { st with needUseD3D11 := true }

/-- The whole `for` loop, started with an empty vector and `needUseD3D11 = false`. -/
def scanExtensions (enabledExtensionNames : List String) : ExtensionScan :=
  enabledExtensionNames.foldl scanExtension ⟨[], false⟩

/-- The list stored in `chainInstanceCreateInfo.enabledExtensionNames`: the loop,
followed by the `if (needUseD3D11)` that pushes the D3D11 extension name. -/
def chainEnabledExtensionNames (enabledExtensionNames : List String) : List String :=
  let st := scanExtensions enabledExtensionNames
  if st.needUseD3D11 then
    st.newEnabledExtensionNames ++ [XR_KHR_D3D11_ENABLE_EXTENSION_NAME]
  else
    st.newEnabledExtensionNames

/-! ## layer.cpp: the tables of the layer -/

/-- State associated with an OpenXR session (`struct Session`). The COM pointers are
handles; `fenceValue` is the `UINT64` counter, initialised to `0`. -/
structure Session where
  xrSession : Nat := XR_NULL_HANDLE
  d3d11Device : Nat := 0
  d3d11Context : Nat := 0
  d3d12Device : Nat := 0
  d3d12Queue : Nat := 0
  d3d11Fence : Nat := 0
  d3d12Fence : Nat := 0
  fenceValue : Nat := 0
  deriving DecidableEq, Repr

/-- State associated with a swapchain (`struct Swapchain`); `createInfo` stands for
the copied creation descriptor, `textures` for the imported D3D12 resources. -/
structure Swapchain where
  xrSwapchain : Nat := XR_NULL_HANDLE
  createInfo : Nat := 0
  xrSession : Nat := XR_NULL_HANDLE
  textures : List Nat := []
  deriving DecidableEq, Repr

/-- A `std::map` keyed by a handle: its entries in increasing key order. -/
abbrev HandleMap (α : Type) := List (Nat × α)

namespace HandleMap

/-- The lookup `std::map::find`. -/
def find {α : Type} (m : HandleMap α) (k : Nat) : Option α :=
  match m with
  | [] => none
  | (k', v) :: rest => if k = k' then some v else find rest k

/-- The test `m.find(k) != m.cend()`. -/
def contains {α : Type} (m : HandleMap α) (k : Nat) : Bool := (find m k).isSome

/-- The update `std::map::insert_or_assign`. -/
def insert_or_assign {α : Type} (m : HandleMap α) (k : Nat) (v : α) : HandleMap α :=
  match m with
  | [] => [(k, v)]
  | (k', v') :: rest =>
    if k < k' then (k, v) :: (k', v') :: rest
    else if k = k' then (k, v) :: rest
    else (k', v') :: insert_or_assign rest k v

/-- The removal `std::map::erase(key)`. -/
def erase {α : Type} (m : HandleMap α) (k : Nat) : HandleMap α :=
  match m with
  | [] => []
  | (k', v') :: rest => if k = k' then erase rest k else (k', v') :: erase rest k

/-- The map after `m[k]` was evaluated: `operator[]` inserts a default-constructed
value when the key is absent. -/
def index {α : Type} (m : HandleMap α) (k : Nat) (dflt : α) : HandleMap α :=
  if contains m k then m else insert_or_assign m k dflt

/-- The value the reference `m[k]` designates. -/
def ref {α : Type} (m : HandleMap α) (k : Nat) (dflt : α) : α := (find m k).getD dflt

end HandleMap

/-- The data members of `class OpenXrLayer`. The function pointer
`xrGetD3D11GraphicsRequirementsKHR` is kept as "is it non-null". -/
structure OpenXrLayer where
  m_systemId : Nat := XR_NULL_SYSTEM_ID
  xrGetD3D11GraphicsRequirementsKHR : Bool := false
  m_sessions : HandleMap Session := []
  m_swapchains : HandleMap Swapchain := []
  deriving DecidableEq, Repr

namespace OpenXrLayer

/-- The test `systemId == m_systemId` (layer.cpp:416-418). -/
def isSystemHandled (L : OpenXrLayer) (systemId : Nat) : Bool := systemId == L.m_systemId

/-- The test `m_sessions.find(session) != m_sessions.cend()`. -/
def isSessionHandled (L : OpenXrLayer) (session : Nat) : Bool := L.m_sessions.contains session

/-- The test `m_swapchains.find(swapchain) != m_swapchains.cend()`. -/
def isSwapchainHandled (L : OpenXrLayer) (swapchain : Nat) : Bool :=
  L.m_swapchains.contains swapchain

end OpenXrLayer

/-! ## dispatch.cpp: `xrCreateApiLayerInstance` -/

/-- One `XrApiLayerNextInfo` of the loader; the two function pointers are kept as
"is it non-null", the `next` link is the rest of the list that holds the struct. -/
structure XrApiLayerNextInfo where
  structType : Nat
  structVersion : Nat
  structSize : Nat
  layerName : String
  nextGetInstanceProcAddr : Bool
  nextCreateApiLayerInstance : Bool
  deriving DecidableEq, Repr

/-- The struct `XrApiLayerCreateInfo`; `nextInfo` is the linked list of next-infos,
the empty list being the null pointer. -/
structure XrApiLayerCreateInfo where
  structType : Nat
  structVersion : Nat
  structSize : Nat
  nextInfo : List XrApiLayerNextInfo
  deriving DecidableEq, Repr

/-- Values fixed outside the two source files: the two `sizeof`s of the loader
structs and the layer's own name `LayerName`. -/
structure LoaderAbi where
  sizeofXrApiLayerCreateInfo : Nat
  sizeofXrApiLayerNextInfo : Nat
  LayerName : String
  deriving DecidableEq, Repr

/-- What the rest of the chain answers during instance creation. -/
structure InstanceEnv where
  result : XrResult
  xrInstance : Nat
  d3d11RequirementsResolved : Bool
  propertiesResult : XrResult
  deriving DecidableEq, Repr

/-- The validation at the top of `xrCreateApiLayerInstance`: `true` when the
negotiation data is rejected. -/
def validationFailed (abi : LoaderAbi) (apiLayerInfo : Option XrApiLayerCreateInfo) : Bool :=
  match apiLayerInfo with
  | none => true
  | some info =>
    info.structType != XR_LOADER_INTERFACE_STRUCT_API_LAYER_CREATE_INFO ||
    info.structVersion != XR_API_LAYER_CREATE_INFO_STRUCT_VERSION ||
    info.structSize != abi.sizeofXrApiLayerCreateInfo ||
    match info.nextInfo with
    | [] => true
    | nextInfo :: _ =>
      nextInfo.structType != XR_LOADER_INTERFACE_STRUCT_API_LAYER_NEXT_INFO ||
      nextInfo.structVersion != XR_API_LAYER_NEXT_INFO_STRUCT_VERSION ||
      nextInfo.structSize != abi.sizeofXrApiLayerNextInfo ||
      nextInfo.layerName != abi.LayerName ||
      !nextInfo.nextGetInstanceProcAddr ||
      !nextInfo.nextCreateApiLayerInstance

namespace OpenXrLayer

/-- The member `OpenXrLayer::xrCreateInstance`: the D3D11 requirements entry point is
looked up (the lookup may fail), then `CHECK_XRCMD(xrGetInstanceProperties ...)`. -/
def xrCreateInstance (L : OpenXrLayer) (env : InstanceEnv) : Outcome × OpenXrLayer :=
  let L1 := { L with xrGetD3D11GraphicsRequirementsKHR := env.d3d11RequirementsResolved }
  if XR_FAILED env.propertiesResult then (.threw, L1) else (.returned XR_SUCCESS, L1)

end OpenXrLayer

/-- What `xrCreateApiLayerInstance` did: its result, the arguments of the call to
`nextCreateApiLayerInstance` when it was made, the singleton `g_instance` afterwards,
and whether the cleanup `xrDestroyInstance` was attempted. -/
structure CreateApiLayerInstanceResult where
  result : XrResult
  forwarded : Option (List String × XrApiLayerCreateInfo)
  g_instance : Option OpenXrLayer
  cleanup : Bool
  deriving DecidableEq, Repr

/-- Entry point for creating the layer (dispatch.cpp:39-122): validation, rewriting
of the extension list, the call to `nextCreateApiLayerInstance` with the rewritten
list and the next-info link advanced, and on `XR_SUCCESS` the layer's own
`xrCreateInstance` on the singleton, with a cleanup attempt when that fails. -/
def xrCreateApiLayerInstance (abi : LoaderAbi) (g_instance : Option OpenXrLayer)
    (enabledExtensionNames : List String) (apiLayerInfo : Option XrApiLayerCreateInfo)
    (env : InstanceEnv) : CreateApiLayerInstanceResult :=
  if validationFailed abi apiLayerInfo then
    { result := XR_ERROR_INITIALIZATION_FAILED, forwarded := none,
      g_instance := g_instance, cleanup := false }
  else
    match apiLayerInfo with
    | none =>
      { result := XR_ERROR_INITIALIZATION_FAILED, forwarded := none,
        g_instance := g_instance, cleanup := false }
    | some info =>
      let chainApiLayerInfo := { info with nextInfo := info.nextInfo.tail }
      let forwarded := some (chainEnabledExtensionNames enabledExtensionNames, chainApiLayerInfo)
      if env.result = XR_SUCCESS then
        match (g_instance.getD {}).xrCreateInstance env with
        | (.returned result, L) =>
          { result := result, forwarded := forwarded, g_instance := some L,
            cleanup := XR_FAILED result }
        | (.threw, L) =>
          { result := XR_ERROR_RUNTIME_FAILURE, forwarded := forwarded, g_instance := some L,
            cleanup := true }
      else
        { result := env.result, forwarded := forwarded, g_instance := g_instance,
          cleanup := false }

/-! ## layer.cpp: the extension chain of `xrCreateSession` -/

/-- A pointer to a struct of an extension chain: null, the struct the application
keeps at an address, or the address of the local `d3d11Bindings`. -/
inductive Ptr where
  | null
  | app (addr : Nat)
  | d3d11Bindings
  deriving DecidableEq, Repr

/-- A chain struct: the `type` tag and `next` link of `XrBaseInStructure`, with the
`device` and `queue` members that the graphics bindings have after them. -/
structure XrBaseInStructure where
  type : Nat
  next : Ptr
  device : Nat := 0
  queue : Nat := 0
  deriving DecidableEq, Repr

structure XrSessionCreateInfo where
  systemId : Nat
  next : Ptr
  deriving DecidableEq, Repr

/-- The memory `xrCreateSession` works on: the caller's `createInfo`, the
application's chain structs by address, and the local `d3d11Bindings`. -/
structure ChainMemory where
  createInfo : XrSessionCreateInfo
  app : HandleMap XrBaseInStructure
  d3d11Bindings : XrBaseInStructure
  deriving DecidableEq, Repr

/-- The place a `const XrBaseInStructure* const*` points at: `&createInfo->next`, or
the `next` member of a chain struct. -/
inductive PtrLoc where
  | createInfo_next
  | entry_next (entry : Ptr)
  deriving DecidableEq, Repr

namespace ChainMemory

/-- Reading the struct behind a pointer; `none` for null or an unmapped address. -/
def deref (mem : ChainMemory) : Ptr → Option XrBaseInStructure
  | .null => none
  | .app addr => mem.app.find addr
  | .d3d11Bindings => some mem.d3d11Bindings

/-- The read `*pprev`. -/
def load (mem : ChainMemory) : PtrLoc → Option Ptr
  | .createInfo_next => some mem.createInfo.next
  | .entry_next entry => (mem.deref entry).map (·.next)

/-- The write `*pprev = value`. -/
def store (mem : ChainMemory) (loc : PtrLoc) (value : Ptr) : ChainMemory :=
  match loc with
  | .createInfo_next => { mem with createInfo := { mem.createInfo with next := value } }
  | .entry_next .null => mem
  | .entry_next .d3d11Bindings =>
    { mem with d3d11Bindings := { mem.d3d11Bindings with next := value } }
  | .entry_next (.app addr) =>
    match mem.app.find addr with
    | none => mem
    | some e => { mem with app := mem.app.insert_or_assign addr { e with next := value } }

/-- The chain a reader follows from `entry`: address and type tag of each struct up
to the null link; `none` when the fuel runs out or a link dangles. -/
def chainFrom (mem : ChainMemory) : Nat → Ptr → Option (List (Ptr × Nat))
  | 0, _ => none
  | fuel + 1, entry =>
    if entry = .null then some []
    else
      match mem.deref entry with
      | none => none
      | some e => (chainFrom mem fuel e.next).map (fun rest => (entry, e.type) :: rest)

/-- The chain that hangs off `createInfo->next`. -/
def chain (mem : ChainMemory) (fuel : Nat) : Option (List (Ptr × Nat)) :=
  mem.chainFrom fuel mem.createInfo.next

/-- The `while (entry)` loop of `xrCreateSession` up to the iteration that finds the
D3D12 binding: `some none` when the null link is reached first, otherwise the value
of `pprev` and the struct found. Only `entry` advances; `pprev` is carried as is. -/
def findD3D12Binding (mem : ChainMemory) :
    Nat → PtrLoc → Ptr → Option (Option (PtrLoc × XrBaseInStructure))
  | 0, _, _ => none
  | fuel + 1, pprev, entry =>
    if entry = .null then some none
    else
      match mem.deref entry with
      | none => none
      | some e =>
        if e.type = XR_TYPE_GRAPHICS_BINDING_D3D12_KHR then some (some (pprev, e))
        else findD3D12Binding mem fuel pprev e.next

/-- The memory when `xrCreateSession` is entered: the caller's structs and the local
`XrGraphicsBindingD3D11KHR d3d11Bindings{XR_TYPE_GRAPHICS_BINDING_D3D11_KHR}`. -/
def onEntry (createInfo : XrSessionCreateInfo) (app : HandleMap XrBaseInStructure) :
    ChainMemory :=
  { createInfo := createInfo, app := app,
    d3d11Bindings := { type := XR_TYPE_GRAPHICS_BINDING_D3D11_KHR, next := .null } }

end ChainMemory

/-! ## layer.cpp: the intercepted entry points -/

/-- A call the layer makes to the platform or to the next handler of the chain. -/
inductive Call where
  | Signal (queue fence value : Nat)
  | Wait (context fence value : Nat)
  | SetEventOnCompletion (fence value : Nat)
  | WaitForSingleObject
  | Flush1 (context : Nat)
  | next_xrEndFrame (session : Nat)
  | next_xrDestroySession (session : Nat)
  deriving DecidableEq, Repr

/-- What the next handler answers to `xrGetSystem` and `xrGetSystemProperties`. -/
structure SystemEnv where
  result : XrResult
  systemId : Nat
  propertiesResult : XrResult
  deriving DecidableEq, Repr

/-- What the platform and the next handler answer during `xrCreateSession`:
`interopOk` says that every `CHECK_HRCMD` of the block that creates the interop
resources succeeds; then the objects created, the result and the handle returned. -/
structure SessionEnv where
  interopOk : Bool
  d3d11Device : Nat
  d3d11Context : Nat
  d3d12Fence : Nat
  d3d11Fence : Nat
  result : XrResult
  session : Nat
  deriving DecidableEq, Repr

/-- What `xrCreateSession` did: how it ended, the layer afterwards, the memory when
it ended, the local `handled`, and the memory the next handler was called with
(`none` when the call was not forwarded). -/
structure CreateSessionResult where
  outcome : Outcome
  layer : OpenXrLayer
  memory : ChainMemory
  handled : Bool
  presented : Option ChainMemory
  deriving DecidableEq, Repr

/-- What the platform and the next handler answer during `xrEndFrame`. -/
structure FrameEnv where
  signalOk : Bool
  waitOk : Bool
  result : XrResult
  deriving DecidableEq, Repr

/-- What the platform and the next handler answer during `xrDestroySession`. -/
structure DestroyEnv where
  result : XrResult
  setEventOk : Bool
  deriving DecidableEq, Repr

/-- What the next handler and the platform answer during
`xrEnumerateSwapchainImages`: the result, the value written to `imageCountOutput`,
the D3D11 textures written to the array passed down, and for every D3D11 texture
the D3D12 resource its import yields (`none` when one of the three `CHECK_HRCMD`
steps of the import fails). -/
structure EnumerateEnv where
  result : XrResult
  imageCountOutput : Nat
  d3d11Images : List Nat
  importTexture : Nat → Option Nat

namespace OpenXrLayer

/-- The member `xrGetSystem` (layer.cpp:129-142): the query is forwarded first; the
system id is remembered when the result is a success, the form factor is
head-mounted display and the D3D11 requirements pointer is non-null; the
`CHECK_XRCMD` on `xrGetSystemProperties` precedes the assignment. -/
def xrGetSystem (L : OpenXrLayer) (formFactor : Nat) (env : SystemEnv) : Outcome × OpenXrLayer :=
  if XR_SUCCEEDED env.result && formFactor == XR_FORM_FACTOR_HEAD_MOUNTED_DISPLAY &&
      L.xrGetD3D11GraphicsRequirementsKHR then
    if XR_FAILED env.propertiesResult then (.threw, L)
    else (.returned env.result, { L with m_systemId := env.systemId })
  else (.returned env.result, L)

/-- The member `xrCreateSession` (layer.cpp:144-264). `fuel` bounds the walk of the
chain; `none` when it runs out or a link dangles. When the loop finds a D3D12 binding
the interop resources are created (a failing step throws, before any store), then
`alteredPrev = pprev; restoreNext = *pprev; *pprev = &d3d11Bindings;
d3d11Bindings.next = entry->next`, the call is forwarded, `*alteredPrev = restoreNext`,
and on success the record is stored under the returned handle. -/
def xrCreateSession (L : OpenXrLayer) (fuel : Nat) (createInfo : XrSessionCreateInfo)
    (app : HandleMap XrBaseInStructure) (env : SessionEnv) : Option CreateSessionResult :=
  let mem := ChainMemory.onEntry createInfo app
  let unhandled : CreateSessionResult :=
    { outcome := .returned env.result, layer := L, memory := mem, handled := false,
      presented := some mem }
  if L.isSystemHandled createInfo.systemId then
    match mem.findD3D12Binding fuel .createInfo_next createInfo.next with
    | none => none
    | some none => some unhandled
    | some (some (pprev, entry)) =>
      if !env.interopOk then
        some { outcome := .threw, layer := L, memory := mem, handled := false,
               presented := none }
      else
        let newSession : Session :=
          { d3d12Device := entry.device, d3d12Queue := entry.queue,
            d3d11Device := env.d3d11Device, d3d11Context := env.d3d11Context,
            d3d12Fence := env.d3d12Fence, d3d11Fence := env.d3d11Fence }
        let alteredPrev := pprev
        match mem.load pprev with
        | none => none
        | some restoreNext =>
          let mem1 := mem.store pprev .d3d11Bindings
          let mem2 : ChainMemory :=
            { mem1 with d3d11Bindings :=
                { mem1.d3d11Bindings with next := entry.next, device := newSession.d3d11Device } }
          let mem3 := mem2.store alteredPrev restoreNext
          let recorded : Session := { newSession with xrSession := env.session }
          let L1 :=
            if XR_SUCCEEDED env.result then
              { L with m_sessions := L.m_sessions.insert_or_assign env.session recorded }
            else L
          some { outcome := .returned env.result, layer := L1, memory := mem3, handled := true,
                 presented := some mem2 }
  else some unhandled

/-- The helper `cleanupSession(m_sessions[session])` (layer.cpp:395-414): the
reference is the record kept under the key `session`. The result of the `Signal` is
not checked; `SetEventOnCompletion` is under `CHECK_HRCMD`; then the swapchain
records whose `xrSession` equals that of the record are erased. -/
def cleanupSession (L : OpenXrLayer) (session : Nat) (setEventOk : Bool) :
    Outcome × OpenXrLayer × List Call :=
  let sessionState := L.m_sessions.ref session ({} : Session)
  let fenceValue := (sessionState.fenceValue + 1) % 2 ^ 64
  let sessionState1 := { sessionState with fenceValue := fenceValue }
  let L1 := { L with m_sessions := L.m_sessions.insert_or_assign session sessionState1 }
  let calls1 := [Call.Signal sessionState1.d3d12Queue sessionState1.d3d12Fence fenceValue,
                 Call.SetEventOnCompletion sessionState1.d3d12Fence fenceValue]
  if !setEventOk then (.threw, L1, calls1)
  else
    let calls2 := calls1 ++ [Call.WaitForSingleObject, Call.Flush1 sessionState1.d3d11Context,
                             Call.WaitForSingleObject]
    let L2 := { L1 with m_swapchains :=
                  L1.m_swapchains.filter (fun it => !(it.2.xrSession == sessionState1.xrSession)) }
    (.returned XR_SUCCESS, L2, calls2)

/-- The member `xrDestroySession` (layer.cpp:266-276): the destroy is forwarded
first; on success, for a handled session, `cleanupSession(m_sessions[session])` and
`m_sessions.erase(session)`. -/
def xrDestroySession (L : OpenXrLayer) (session : Nat) (env : DestroyEnv) :
    Outcome × OpenXrLayer × List Call :=
  let calls0 := [Call.next_xrDestroySession session]
  if XR_SUCCEEDED env.result && L.isSessionHandled session then
    let L0 := { L with m_sessions := L.m_sessions.index session ({} : Session) }
    match cleanupSession L0 session env.setEventOk with
    | (.threw, L1, calls) => (.threw, L1, calls0 ++ calls)
    | (.returned _, L1, calls) =>
      (.returned env.result, { L1 with m_sessions := L1.m_sessions.erase session },
        calls0 ++ calls)
  else (.returned env.result, L, calls0)

/-- The member `xrCreateSwapchain` (layer.cpp:278-311); `result` and `swapchain` are
what the next handler answers. -/
def xrCreateSwapchain (L : OpenXrLayer) (session : Nat) (createInfo : Nat)
    (result : XrResult) (swapchain : Nat) : XrResult × OpenXrLayer :=
  let handled := L.isSessionHandled session
  let newSwapchain : Swapchain :=
    if handled then { xrSession := session, createInfo := createInfo } else {}
  let recorded : Swapchain := { newSwapchain with xrSwapchain := swapchain }
  if XR_SUCCEEDED result && handled then
    (result, { L with m_swapchains := L.m_swapchains.insert_or_assign swapchain recorded })
  else (result, L)

/-- The member `xrDestroySwapchain` (layer.cpp:313-320). -/
def xrDestroySwapchain (L : OpenXrLayer) (swapchain : Nat) (result : XrResult) :
    XrResult × OpenXrLayer :=
  if XR_SUCCEEDED result && L.isSwapchainHandled swapchain then
    (result, { L with m_swapchains := L.m_swapchains.erase swapchain })
  else (result, L)

/-- The `for` loop of `xrEnumerateSwapchainImages` from index `i` on, `n` iterations
left: `textures` is `swapchainState.textures`, `images` what was written so far to
the caller's array. The flag says whether the loop ran to its end (`false`: a step
of an import threw, or `d3d11Images[i]` is out of range). -/
def importLoop (d3d11Images : List Nat) (importTexture : Nat → Option Nat) :
    Nat → Nat → List Nat → List Nat → Bool × List Nat × List Nat
  | 0, _, textures, images => (true, textures, images)
  | n + 1, i, textures, images =>
    match d3d11Images[i]? with
    | none => (false, textures, images)
    | some texture =>
      match importTexture texture with
      | none => (false, textures, images)
      | some d3d12Resource =>
        importLoop d3d11Images importTexture n (i + 1)
          (textures ++ [d3d12Resource]) (images ++ [d3d12Resource])

/-- The entry point `xrEnumerateSwapchainImages`; the third component is what was
written to the caller's `images` array by the layer, in index order. -/
def xrEnumerateSwapchainImages (L : OpenXrLayer) (swapchain : Nat) (imageCapacityInput : Nat)
    (env : EnumerateEnv) : Outcome × OpenXrLayer × List Nat :=
  if !L.isSwapchainHandled swapchain || imageCapacityInput == 0 then
    (.returned env.result, L, [])
  else
    let d3d11Images := env.d3d11Images.take imageCapacityInput
    if XR_SUCCEEDED env.result then
      let L0 := { L with m_swapchains := L.m_swapchains.index swapchain ({} : Swapchain) }
      let swapchainState := L0.m_swapchains.ref swapchain ({} : Swapchain)
      let L1 := { L0 with m_sessions := L0.m_sessions.index swapchainState.xrSession ({} : Session) }
      match importLoop d3d11Images env.importTexture env.imageCountOutput 0
          swapchainState.textures [] with
      | (completed, textures, images) =>
        let swapchainState1 : Swapchain := { swapchainState with textures := textures }
        let L2 :=
          { L1 with m_swapchains := L1.m_swapchains.insert_or_assign swapchain swapchainState1 }
        (if completed then .returned env.result else .threw, L2, images)
    else (.returned env.result, L, [])

/-- The member `xrEndFrame` (layer.cpp:382-392): for a handled session
`Signal(fence, ++fenceValue)` under `CHECK_HRCMD`, then `Wait(fence, fenceValue)`
under `CHECK_HRCMD`, then the call is forwarded. -/
def xrEndFrame (L : OpenXrLayer) (session : Nat) (env : FrameEnv) :
    Outcome × OpenXrLayer × List Call :=
  if L.isSessionHandled session then
    let L0 := { L with m_sessions := L.m_sessions.index session ({} : Session) }
    let sessionState := L0.m_sessions.ref session ({} : Session)
    let fenceValue := (sessionState.fenceValue + 1) % 2 ^ 64
    let sessionState1 := { sessionState with fenceValue := fenceValue }
    let L1 := { L0 with m_sessions := L0.m_sessions.insert_or_assign session sessionState1 }
    let signal := Call.Signal sessionState1.d3d12Queue sessionState1.d3d12Fence fenceValue
    if !env.signalOk then (.threw, L1, [signal])
    else
      let wait := Call.Wait sessionState1.d3d11Context sessionState1.d3d11Fence fenceValue
      if !env.waitOk then (.threw, L1, [signal, wait])
      else (.returned env.result, L1, [signal, wait, Call.next_xrEndFrame session])
  else (.returned env.result, L, [Call.next_xrEndFrame session])

end OpenXrLayer

/-! ## Sample negotiation data used by the concrete instances below -/

def sampleAbi : LoaderAbi :=
  { sizeofXrApiLayerCreateInfo := 4400, sizeofXrApiLayerNextInfo := 296,
    LayerName := "XR_APILAYER_NOVENDOR_d3d12on11_interop" }

def sampleApiLayerInfo : Option XrApiLayerCreateInfo :=
  some { structType := 4, structVersion := 1, structSize := 4400,
         nextInfo := [{ structType := 5, structVersion := 1, structSize := 296,
                        layerName := "XR_APILAYER_NOVENDOR_d3d12on11_interop",
                        nextGetInstanceProcAddr := true,
                        nextCreateApiLayerInstance := true }] }

def sampleInstanceEnv : InstanceEnv :=
  { result := 0, xrInstance := 1, d3d11RequirementsResolved := true, propertiesResult := 0 }

/-- The names `xrCreateApiLayerInstance` passes to the next layer, when it calls it. -/
def forwardedNames (r : CreateApiLayerInstanceResult) : Option (List String) :=
  r.forwarded.map (·.1)

/-- The test of the scanning loop, as a predicate on a name. -/
def isD3D12Name (ext : String) : Bool := extLowerCase ext == "xr_khr_d3d12_enable"

/-! ## Sequences of calls on one instance -/

/-- A call the application makes on the instance. -/
inductive Request where
  | getSystem (formFactor : Nat) (env : SystemEnv)
  | createSession (createInfo : XrSessionCreateInfo) (app : HandleMap XrBaseInStructure)
      (env : SessionEnv)
  deriving DecidableEq, Repr

/-- The system id a request carries, when it is an `xrCreateSession`. -/
def Request.systemId? : Request → Option Nat
  | .getSystem _ _ => none
  | .createSession createInfo _ _ => some createInfo.systemId

/-- The layer after a sequence of `xrGetSystem` and `xrCreateSession` calls, with
what each `xrCreateSession` did, in call order. A call that throws leaves the layer
as it was when it threw. `none` when a chain walk runs out of fuel. -/
def runRequests (fuel : Nat) :
    OpenXrLayer → List Request → Option (OpenXrLayer × List CreateSessionResult)
  | L, [] => some (L, [])
  | L, .getSystem formFactor env :: rest => runRequests fuel (L.xrGetSystem formFactor env).2 rest
  | L, .createSession createInfo app env :: rest =>
    match L.xrCreateSession fuel createInfo app env with
    | none => none
    | some r => (runRequests fuel r.layer rest).map (fun out => (out.1, r :: out.2))

/-- A chain of one struct, a D3D12 graphics binding, kept at address `1`. -/
def sampleBindingOnly : HandleMap XrBaseInStructure :=
  [(1, { type := XR_TYPE_GRAPHICS_BINDING_D3D12_KHR, next := .null, device := 50, queue := 51 })]

/-- A chain of three structs at addresses `1`, `2`, `3`: a struct of type `7`, a D3D12
graphics binding, a struct of type `9`. -/
def sampleBindingMiddle : HandleMap XrBaseInStructure :=
  [(1, { type := 7, next := .app 2 }),
   (2, { type := XR_TYPE_GRAPHICS_BINDING_D3D12_KHR, next := .app 3, device := 50, queue := 51 }),
   (3, { type := 9, next := .null })]

/-- Every platform step succeeds and the next handler returns `XR_SUCCESS` with the
session handle `100`. -/
def sampleSessionEnv : SessionEnv :=
  { interopOk := true, d3d11Device := 60, d3d11Context := 61, d3d12Fence := 62,
    d3d11Fence := 63, result := 0, session := 100 }

/-- The layer right after a successful `xrCreateApiLayerInstance` for the requested
names, when there was no singleton before; the default layer otherwise. -/
def instanceFor (names : List String) (env : InstanceEnv) : OpenXrLayer :=
  ((xrCreateApiLayerInstance sampleAbi none names sampleApiLayerInfo env).g_instance).getD {}

/-- The instance environment in which the D3D11 requirements entry point is not
resolved. -/
def sampleInstanceEnvUnresolved : InstanceEnv :=
  { result := 0, xrInstance := 1, d3d11RequirementsResolved := false, propertiesResult := 0 }

/-- For a run: whether the handle `session` has a record at the end, and for each
`xrCreateSession` its `handled` flag and the value of `createInfo->next` the next
handler was called with. -/
def runSummary (session : Nat) (run : Option (OpenXrLayer × List CreateSessionResult)) :
    Option (Bool × List (Bool × Option Ptr)) :=
  run.map (fun out =>
    (out.1.isSessionHandled session,
     out.2.map (fun r => (r.handled, r.presented.map (·.createInfo.next)))))

/-- A layer whose handled system is `5`, with empty tables. -/
def sampleLayer : OpenXrLayer := { m_systemId := 5, xrGetD3D11GraphicsRequirementsKHR := true }

/-- The chain the next handler reads when `xrCreateSession` forwards the call. -/
def presentedChain (fuel : Nat) (r : Option CreateSessionResult) : Option (List (Ptr × Nat)) :=
  (r.bind (·.presented)).bind (·.chain fuel)

/-- As `sampleSessionEnv`, but the next handler fails the creation. -/
def sampleSessionEnvFailing : SessionEnv :=
  { interopOk := true, d3d11Device := 60, d3d11Context := 61, d3d12Fence := 62,
    d3d11Fence := 63, result := -1, session := 0 }

/-! ## Sequences of `xrEndFrame` calls on one session -/

/-- The layer after one `xrEndFrame` call on `session` per element of the list, and
the calls made to the platform and to the next handler, in order. A call that throws
leaves the layer as it was when it threw. -/
def endFrames (L : OpenXrLayer) (session : Nat) : List FrameEnv → OpenXrLayer × List Call
  | [] => (L, [])
  | env :: rest =>
    let out := L.xrEndFrame session env
    let tail := endFrames out.2.1 session rest
    (tail.1, out.2.2 ++ tail.2)

/-- The calls of one `xrEndFrame` on a handled session, by what the platform
answers. -/
def frameCalls (session : Nat) (record : Session) (value : Nat) (env : FrameEnv) : List Call :=
  Call.Signal record.d3d12Queue record.d3d12Fence value ::
    (if env.signalOk then
      Call.Wait record.d3d11Context record.d3d11Fence value ::
        (if env.waitOk then [Call.next_xrEndFrame session] else [])
    else [])

/-- The fence counter kept for `session`, when it has a record. -/
def fenceValueOf (L : OpenXrLayer) (session : Nat) : Option Nat :=
  (L.m_sessions.find session).map (·.fenceValue)

/-- The layer `sampleLayer` after a session was created on the handled system with
a D3D12 binding first in the chain; the returned handle is `100`. -/
def sampleCreated : OpenXrLayer :=
  ((sampleLayer.xrCreateSession 5 ⟨5, .app 1⟩ sampleBindingOnly sampleSessionEnv).map
    (·.layer)).getD {}

/-- The record `sampleCreated` keeps for the session `100`. -/
def sampleRecord : Session :=
  { xrSession := 100, d3d11Device := 60, d3d11Context := 61, d3d12Device := 50,
    d3d12Queue := 51, d3d11Fence := 63, d3d12Fence := 62, fenceValue := 0 }

/-- An `xrEndFrame` environment in which every step succeeds. -/
def sampleFrameEnv : FrameEnv := { signalOk := true, waitOk := true, result := 0 }

/-- An `xrDestroySession` environment in which every step succeeds. -/
def sampleDestroyEnv : DestroyEnv := { result := 0, setEventOk := true }

/-- The layer `sampleCreated` after the swapchain `3` was created for the session
`100`. -/
def sampleWithSwapchain : OpenXrLayer := (sampleCreated.xrCreateSwapchain 100 0 0 3).2

/-- The record `sampleWithSwapchain` keeps for the swapchain `3`. -/
def sampleSwapchainRecord : Swapchain :=
  { xrSwapchain := 3, createInfo := 0, xrSession := 100, textures := [] }

/-- The runtime reports two images, the D3D11 textures `10` and `11`; the import of
the texture `t` yields the D3D12 resource `t + 100`. -/
def sampleEnumerateEnv : EnumerateEnv :=
  { result := 0, imageCountOutput := 2, d3d11Images := [10, 11],
    importTexture := fun t => some (t + 100) }

/-! ## Malformed negotiation data, in the words of the specification -/

/-- The negotiation data is malformed: the layer-info pointer is null, or its struct
type, version or size tag differs from the expected value, or its next-info link is
null, or the next-info struct type, version or size tag differs, or the next-info
layer name is not this layer's name, or one of the two next-handler function
pointers is null. -/
def negotiationMalformed (abi : LoaderAbi) (apiLayerInfo : Option XrApiLayerCreateInfo) : Prop :=
  match apiLayerInfo with
  | none => True
  | some info =>
    info.structType ≠ XR_LOADER_INTERFACE_STRUCT_API_LAYER_CREATE_INFO ∨
    info.structVersion ≠ XR_API_LAYER_CREATE_INFO_STRUCT_VERSION ∨
    info.structSize ≠ abi.sizeofXrApiLayerCreateInfo ∨
    match info.nextInfo with
    | [] => True
    | nextInfo :: _ =>
      nextInfo.structType ≠ XR_LOADER_INTERFACE_STRUCT_API_LAYER_NEXT_INFO ∨
      nextInfo.structVersion ≠ XR_API_LAYER_NEXT_INFO_STRUCT_VERSION ∨
      nextInfo.structSize ≠ abi.sizeofXrApiLayerNextInfo ∨
      nextInfo.layerName ≠ abi.LayerName ∨
      nextInfo.nextGetInstanceProcAddr = false ∨
      nextInfo.nextCreateApiLayerInstance = false

/-- Negotiation data that is well-formed but for its version tag, `2`. -/
def sampleApiLayerInfoBadVersion : Option XrApiLayerCreateInfo :=
  some { structType := 4, structVersion := 2, structSize := 4400,
         nextInfo := [{ structType := 5, structVersion := 1, structSize := 296,
                        layerName := "XR_APILAYER_NOVENDOR_d3d12on11_interop",
                        nextGetInstanceProcAddr := true,
                        nextCreateApiLayerInstance := true }] }

/-- A freshly created layer whose D3D11 requirements entry point was resolved. -/
def sampleFreshLayer : OpenXrLayer := { xrGetD3D11GraphicsRequirementsKHR := true }

/-- The next handler answers `xrGetSystem` with success and the system id `7`, and the
properties query succeeds. -/
def sampleSystemEnv : SystemEnv := { result := 0, systemId := 7, propertiesResult := 0 }

/-- As `sampleSystemEnv`, but the properties query fails. -/
def sampleSystemEnvNoProperties : SystemEnv :=
  { result := 0, systemId := 7, propertiesResult := -1 }

/-! ## Sequences of intercepted calls -/

/-- One call of the application to an intercepted entry point, with what the
platform and the next handler answer to it. -/
inductive Op where
  | getSystem (formFactor : Nat) (env : SystemEnv)
  | createSession (createInfo : XrSessionCreateInfo) (app : HandleMap XrBaseInStructure)
      (env : SessionEnv)
  | destroySession (session : Nat) (env : DestroyEnv)
  | createSwapchain (session : Nat) (createInfo : Nat) (result : XrResult) (swapchain : Nat)
  | destroySwapchain (swapchain : Nat) (result : XrResult)
  | enumerateSwapchainImages (swapchain : Nat) (imageCapacityInput : Nat) (env : EnumerateEnv)
  | endFrame (session : Nat) (env : FrameEnv)

/-- The layer after one call; a call that throws leaves the layer as it was when it
threw. `none` when the chain walk of `xrCreateSession` runs out of fuel. -/
def applyOp (fuel : Nat) (L : OpenXrLayer) : Op → Option OpenXrLayer
  | .getSystem formFactor env => some (L.xrGetSystem formFactor env).2
  | .createSession createInfo app env =>
    (L.xrCreateSession fuel createInfo app env).map (·.layer)
  | .destroySession session env => some (L.xrDestroySession session env).2.1
  | .createSwapchain session createInfo result swapchain =>
    some (L.xrCreateSwapchain session createInfo result swapchain).2
  | .destroySwapchain swapchain result => some (L.xrDestroySwapchain swapchain result).2
  | .enumerateSwapchainImages swapchain imageCapacityInput env =>
    some (L.xrEnumerateSwapchainImages swapchain imageCapacityInput env).2.1
  | .endFrame session env => some (L.xrEndFrame session env).2.1

/-- The layer after a sequence of calls. -/
def runOps (fuel : Nat) : OpenXrLayer → List Op → Option OpenXrLayer
  | L, [] => some L
  | L, op :: rest =>
    match applyOp fuel L op with
    | none => none
    | some L1 => runOps fuel L1 rest

/-- Referential integrity of the two tables: every swapchain record names an owning
session that has a record, and every session record is kept under its own handle. -/
def TablesConsistent (L : OpenXrLayer) : Prop :=
  (∀ it ∈ L.m_swapchains, L.m_sessions.contains it.2.xrSession = true) ∧
  (∀ it ∈ L.m_sessions, it.2.xrSession = it.1)

/-- The imported-resource list kept for `swapchain`, when it has a record. -/
def texturesOf (L : OpenXrLayer) (swapchain : Nat) : Option (List Nat) :=
  (L.m_swapchains.find swapchain).map (·.textures)

/-- A sequence of `xrEnumerateSwapchainImages` calls on one swapchain, each given by
its `imageCapacityInput` and the answers it gets: the layer afterwards and how each
call ended. -/
def enumerateAll (L : OpenXrLayer) (swapchain : Nat) :
    List (Nat × EnumerateEnv) → OpenXrLayer × List Outcome
  | [] => (L, [])
  | call :: rest =>
    let out := L.xrEnumerateSwapchainImages swapchain call.1 call.2
    let tail := enumerateAll out.2.1 swapchain rest
    (tail.1, out.1 :: tail.2)

/-- The sum of the image counts the runtime reports to the calls of the sequence that
have a nonzero capacity. -/
def reportedTotal : List (Nat × EnumerateEnv) → Nat
  | [] => 0
  | call :: rest => (if call.1 = 0 then 0 else call.2.imageCountOutput) + reportedTotal rest

/-- The call ended by returning a success code. -/
def Outcome.succeeded : Outcome → Bool
  | .returned result => XR_SUCCEEDED result
  | .threw => false

/-- As `sampleEnumerateEnv`, but the import of every texture other than `10` fails. -/
def sampleEnumerateEnvFailingImport : EnumerateEnv :=
  { result := 0, imageCountOutput := 2, d3d11Images := [10, 11],
    importTexture := fun t => if t = 10 then some 110 else none }

/-- The layer `sampleWithSwapchain` after a second session, `200`, was created and a
swapchain `4` was created for it. -/
def sampleTwoSessions : OpenXrLayer :=
  (((sampleWithSwapchain.xrCreateSession 5 ⟨5, .app 1⟩ sampleBindingOnly
      { sampleSessionEnv with session := 200 }).map
    (fun r => (r.layer.xrCreateSwapchain 200 0 0 4).2)).getD {})

/-- The calls that lead from `sampleLayer` to `sampleTwoSessions`. -/
def sampleOps : List Op :=
  [.createSession ⟨5, .app 1⟩ sampleBindingOnly sampleSessionEnv,
   .createSwapchain 100 0 0 3,
   .createSession ⟨5, .app 1⟩ sampleBindingOnly { sampleSessionEnv with session := 200 },
   .createSwapchain 200 0 0 4]

/-! ## Lemmas on the extension scan -/

theorem scanExtension_keep (st : ExtensionScan) (ext : String) (h : isD3D12Name ext = false) :
    scanExtension st ext =
      { st with newEnabledExtensionNames := st.newEnabledExtensionNames ++ [ext] } := by
  have h1 : extLowerCase ext ≠ "xr_khr_d3d12_enable" := by
    simpa [isD3D12Name] using h
  simp [scanExtension, h1]

theorem scanExtension_drop (st : ExtensionScan) (ext : String) (h : isD3D12Name ext = true) :
    scanExtension st ext = { st with needUseD3D11 := true } := by
  have h1 : extLowerCase ext = "xr_khr_d3d12_enable" := by
    simpa [isD3D12Name] using h
  simp [scanExtension, h1]

theorem foldl_scanExtension (names : List String) (st : ExtensionScan) :
    names.foldl scanExtension st =
      { newEnabledExtensionNames :=
          st.newEnabledExtensionNames ++ names.filter (fun ext => !isD3D12Name ext),
        needUseD3D11 := st.needUseD3D11 || names.any isD3D12Name } := by
  induction names generalizing st with
  | nil => simp
  | cons ext rest ih =>
    rw [List.foldl_cons, ih]
    cases h : isD3D12Name ext
    · rw [scanExtension_keep st ext h]
      simp [h]
    · rw [scanExtension_drop st ext h]
      simp [h]

theorem chainEnabledExtensionNames_eq (names : List String) :
    chainEnabledExtensionNames names =
      names.filter (fun ext => !isD3D12Name ext) ++
        (if names.any isD3D12Name then [XR_KHR_D3D11_ENABLE_EXTENSION_NAME] else []) := by
  unfold chainEnabledExtensionNames scanExtensions
  rw [foldl_scanExtension]
  cases h : names.any isD3D12Name <;> simp [h]

theorem forwardedNames_of_valid (abi : LoaderAbi) (g : Option OpenXrLayer)
    (names : List String) (apiLayerInfo : Option XrApiLayerCreateInfo) (env : InstanceEnv)
    (hvalid : validationFailed abi apiLayerInfo = false) :
    forwardedNames (xrCreateApiLayerInstance abi g names apiLayerInfo env) =
      some (chainEnabledExtensionNames names) := by
  cases apiLayerInfo with
  | none => simp [validationFailed] at hvalid
  | some info =>
    unfold xrCreateApiLayerInstance
    rw [hvalid]
    simp only [Bool.false_eq_true, if_false]
    split
    · split <;> rfl
    · rfl

theorem filter_eq_erase (names : List String)
    (hcount : names.count XR_KHR_D3D12_ENABLE_EXTENSION_NAME = 1)
    (honly : ∀ ext ∈ names, isD3D12Name ext = true → ext = XR_KHR_D3D12_ENABLE_EXTENSION_NAME) :
    names.filter (fun ext => !isD3D12Name ext) =
      names.erase XR_KHR_D3D12_ENABLE_EXTENSION_NAME := by
  induction names with
  | nil => simp at hcount
  | cons ext rest ih =>
    by_cases hx : ext = XR_KHR_D3D12_ENABLE_EXTENSION_NAME
    · subst hx
      have hnot : XR_KHR_D3D12_ENABLE_EXTENSION_NAME ∉ rest := by
        intro hmem
        have := List.count_pos_iff.mpr hmem
        simp at hcount
        omega
      have hkeep : ∀ e ∈ rest, (!isD3D12Name e) = true := by
        intro e he
        cases hm : isD3D12Name e
        · rfl
        · exact absurd (honly e (List.mem_cons_of_mem _ he) hm ▸ he) hnot
      have h12 : isD3D12Name XR_KHR_D3D12_ENABLE_EXTENSION_NAME = true := by decide
      simp [h12, List.filter_eq_self.mpr hkeep]
    · have hkeep : isD3D12Name ext = false := by
        cases hm : isD3D12Name ext
        · rfl
        · exact absurd (honly ext (List.mem_cons_self _ _) hm) hx
      have hcount1 : rest.count XR_KHR_D3D12_ENABLE_EXTENSION_NAME = 1 := by
        rw [List.count_cons] at hcount
        simpa [hx] using hcount
      have ih1 := ih hcount1 (fun e he => honly e (List.mem_cons_of_mem _ he))
      rw [List.erase_cons_tail (by simpa using hx)]
      simp [hkeep, ih1]

/-! ## Capability negotiation (C1, C2) -/

/-- C1, as stated, fails: the list `["XR_KHR_D3D12_enable", "xr_khr_d3d12_enable"]`
contains the name `XR_KHR_D3D12_enable` exactly once, yet the forwarded list is
`["XR_KHR_D3D11_enable"]`: the second name, which differs from the first, is
removed as well, because the loop compares lower-cased names. -/
theorem C1_counterexample_case_variant :
    List.count XR_KHR_D3D12_ENABLE_EXTENSION_NAME
        ["XR_KHR_D3D12_enable", "xr_khr_d3d12_enable"] = 1 ∧
    forwardedNames (xrCreateApiLayerInstance sampleAbi none
        ["XR_KHR_D3D12_enable", "xr_khr_d3d12_enable"] sampleApiLayerInfo sampleInstanceEnv)
      = some ["XR_KHR_D3D11_enable"] ∧
    forwardedNames (xrCreateApiLayerInstance sampleAbi none
        ["XR_KHR_D3D12_enable", "xr_khr_d3d12_enable"] sampleApiLayerInfo sampleInstanceEnv)
      ≠ some (List.erase ["XR_KHR_D3D12_enable", "xr_khr_d3d12_enable"]
                XR_KHR_D3D12_ENABLE_EXTENSION_NAME ++ [XR_KHR_D3D11_ENABLE_EXTENSION_NAME]) := by
  decide

/-- C1, amended: when the requested list contains the name `XR_KHR_D3D12_enable`
exactly once and no other name that matches it case-insensitively, and the negotiation
data passes validation, the list forwarded to the next layer is the input list with
that name removed (all other names in their original order) followed by exactly one
`XR_KHR_D3D11_enable`. -/
theorem C1_forwarded_list_single_d3d12 (abi : LoaderAbi) (g : Option OpenXrLayer)
    (names : List String) (apiLayerInfo : Option XrApiLayerCreateInfo) (env : InstanceEnv)
    (hvalid : validationFailed abi apiLayerInfo = false)
    (hcount : names.count XR_KHR_D3D12_ENABLE_EXTENSION_NAME = 1)
    (honly : ∀ ext ∈ names, extLowerCase ext = "xr_khr_d3d12_enable" →
        ext = XR_KHR_D3D12_ENABLE_EXTENSION_NAME) :
    forwardedNames (xrCreateApiLayerInstance abi g names apiLayerInfo env) =
      some (names.erase XR_KHR_D3D12_ENABLE_EXTENSION_NAME ++
              [XR_KHR_D3D11_ENABLE_EXTENSION_NAME]) := by
  have honly1 : ∀ ext ∈ names, isD3D12Name ext = true →
      ext = XR_KHR_D3D12_ENABLE_EXTENSION_NAME := by
    intro ext he hm
    exact honly ext he (by simpa [isD3D12Name] using hm)
  have hmem : XR_KHR_D3D12_ENABLE_EXTENSION_NAME ∈ names :=
    List.count_pos_iff.mp (by omega)
  have hany : names.any isD3D12Name = true :=
    List.any_eq_true.mpr ⟨_, hmem, by decide⟩
  rw [forwardedNames_of_valid abi g names apiLayerInfo env hvalid,
    chainEnabledExtensionNames_eq, filter_eq_erase names hcount honly1, hany]
  rfl

/-- The scenario of C1: `["XR_KHR_D3D12_enable", "XR_KHR_foo"]` is forwarded as
`["XR_KHR_foo", "XR_KHR_D3D11_enable"]`. -/
theorem C1_forwarded_list_single_d3d12_witness :
    forwardedNames (xrCreateApiLayerInstance sampleAbi none
        ["XR_KHR_D3D12_enable", "XR_KHR_foo"] sampleApiLayerInfo sampleInstanceEnv)
      = some ["XR_KHR_foo", "XR_KHR_D3D11_enable"] :=
  (C1_forwarded_list_single_d3d12 sampleAbi none ["XR_KHR_D3D12_enable", "XR_KHR_foo"]
    sampleApiLayerInfo sampleInstanceEnv (by decide) (by decide) (by decide)).trans
    (by decide)

/-- C2: whenever the negotiation data passes validation, the forwarded list is the
input names whose lower-cased form differs from `xr_khr_d3d12_enable`, in their
original order, followed by one `XR_KHR_D3D11_enable` exactly when some input name
matched case-insensitively; and when no input name matches, the forwarded list is
the input list itself. -/
theorem C2_forwarded_list_filter (abi : LoaderAbi) (g : Option OpenXrLayer)
    (names : List String) (apiLayerInfo : Option XrApiLayerCreateInfo) (env : InstanceEnv)
    (hvalid : validationFailed abi apiLayerInfo = false) :
    forwardedNames (xrCreateApiLayerInstance abi g names apiLayerInfo env) =
      some (names.filter (fun ext => extLowerCase ext != "xr_khr_d3d12_enable") ++
        (if names.any (fun ext => extLowerCase ext == "xr_khr_d3d12_enable")
          then [XR_KHR_D3D11_ENABLE_EXTENSION_NAME] else [])) ∧
    ((∀ ext ∈ names, extLowerCase ext ≠ "xr_khr_d3d12_enable") →
      forwardedNames (xrCreateApiLayerInstance abi g names apiLayerInfo env) = some names) := by
  rw [forwardedNames_of_valid abi g names apiLayerInfo env hvalid,
    chainEnabledExtensionNames_eq]
  refine ⟨rfl, fun hno => ?_⟩
  have hkeep : ∀ ext ∈ names, (!isD3D12Name ext) = true := by
    intro ext he
    simpa [isD3D12Name] using hno ext he
  have hany : names.any isD3D12Name = false := by
    rw [List.any_eq_false]
    intro ext he
    simpa [isD3D12Name] using hno ext he
  rw [List.filter_eq_self.mpr hkeep, hany]
  simp

/-- An instance of C2 with two matching names in different letter case and two
names that survive. -/
theorem C2_forwarded_list_filter_witness :
    forwardedNames (xrCreateApiLayerInstance sampleAbi none
        ["XR_a", "XR_KHR_D3D12_ENABLE", "XR_b", "xr_khr_d3d12_enable"]
        sampleApiLayerInfo sampleInstanceEnv)
      = some ["XR_a", "XR_b", "XR_KHR_D3D11_enable"] :=
  (C2_forwarded_list_filter sampleAbi none
    ["XR_a", "XR_KHR_D3D12_ENABLE", "XR_b", "xr_khr_d3d12_enable"]
    sampleApiLayerInfo sampleInstanceEnv (by decide)).1.trans (by decide)

/-! ## The handled-system gate (C3) -/

theorem xrGetSystem_gate_closed (L : OpenXrLayer) (formFactor : Nat) (env : SystemEnv)
    (hgate : L.xrGetD3D11GraphicsRequirementsKHR = false) :
    (L.xrGetSystem formFactor env).2 = L := by
  simp [OpenXrLayer.xrGetSystem, hgate]

theorem xrCreateSession_unhandled_system (L : OpenXrLayer) (fuel : Nat)
    (createInfo : XrSessionCreateInfo) (app : HandleMap XrBaseInStructure) (env : SessionEnv)
    (hsys : createInfo.systemId ≠ L.m_systemId) :
    ∃ r, L.xrCreateSession fuel createInfo app env = some r ∧
      r.outcome = .returned env.result ∧ r.handled = false ∧ r.layer = L ∧
      r.presented = some r.memory ∧ r.memory.createInfo = createInfo ∧ r.memory.app = app ∧
      r.memory.d3d11Bindings.next = .null := by
  simp [OpenXrLayer.xrCreateSession, OpenXrLayer.isSystemHandled, hsys, ChainMemory.onEntry]

theorem runRequests_inert (fuel : Nat) (reqs : List Request) (L : OpenXrLayer)
    (hgate : L.xrGetD3D11GraphicsRequirementsKHR = false)
    (hsys : L.m_systemId = XR_NULL_SYSTEM_ID)
    (hids : ∀ req ∈ reqs, req.systemId? ≠ some XR_NULL_SYSTEM_ID) :
    ∃ results, runRequests fuel L reqs = some (L, results) ∧
      ∀ r ∈ results, r.handled = false ∧ r.layer = L ∧
        r.presented = some r.memory ∧ r.memory.d3d11Bindings.next = .null := by
  induction reqs with
  | nil => exact ⟨[], rfl, by simp⟩
  | cons req rest ih =>
    obtain ⟨results, hrun, hres⟩ := ih (fun r hr => hids r (List.mem_cons_of_mem _ hr))
    cases req with
    | getSystem formFactor env =>
      refine ⟨results, ?_, hres⟩
      simp [runRequests, xrGetSystem_gate_closed L formFactor env hgate, hrun]
    | createSession createInfo app env =>
      have hne : createInfo.systemId ≠ L.m_systemId := by
        have := hids (.createSession createInfo app env) (List.mem_cons_self _ _)
        simpa [Request.systemId?, hsys] using this
      obtain ⟨r0, hr0, -, hh, hl, hp, -, -, hn⟩ :=
        xrCreateSession_unhandled_system L fuel createInfo app env hne
      refine ⟨r0 :: results, by simp [runRequests, hr0, hl, hrun], ?_⟩
      intro r hr
      rcases List.mem_cons.mp hr with h | h
      · subst h
        exact ⟨hh, hl, hp, hn⟩
      · exact hres r h

theorem created_instance_fresh (abi : LoaderAbi) (names : List String)
    (apiLayerInfo : Option XrApiLayerCreateInfo) (env : InstanceEnv) (L : OpenXrLayer)
    (hL : (xrCreateApiLayerInstance abi none names apiLayerInfo env).g_instance = some L) :
    L = { xrGetD3D11GraphicsRequirementsKHR := env.d3d11RequirementsResolved } := by
  unfold xrCreateApiLayerInstance at hL
  split at hL
  · simp at hL
  · split at hL
    · simp at hL
    · split at hL
      · simp only [Option.getD_none, OpenXrLayer.xrCreateInstance] at hL
        split at hL <;> rename_i heq <;> split at heq <;> simp at heq <;>
          simp at hL <;> first | rw [← hL, ← heq.2] | rw [← hL, ← heq]
      · simp at hL

/-- C3, as stated, fails; the layer keeps no record of whether the substitution
occurred. First run: no extension is requested, the D3D11 requirements entry point
is not resolved, and a session is requested for `XR_NULL_SYSTEM_ID` (the initial
value of `m_systemId`) with a D3D12 binding. Second run: the application requests
`XR_KHR_D3D11_enable` itself, queries a head-mounted system and receives the id `7`,
then requests a session on system `7` with a D3D12 binding. In both the binding is
substituted and a record is inserted under the returned handle `100`. -/
theorem C3_counterexample_no_substitution_flag :
    (∀ ext ∈ ([] : List String), extLowerCase ext ≠ "xr_khr_d3d12_enable") ∧
    (scanExtensions []).needUseD3D11 = false ∧
    runSummary 100
        (runRequests 5 (instanceFor [] sampleInstanceEnvUnresolved)
          [.createSession ⟨XR_NULL_SYSTEM_ID, .app 1⟩ sampleBindingOnly sampleSessionEnv])
      = some (true, [(true, some .d3d11Bindings)]) ∧
    (∀ ext ∈ ["XR_KHR_D3D11_enable"], extLowerCase ext ≠ "xr_khr_d3d12_enable") ∧
    (scanExtensions ["XR_KHR_D3D11_enable"]).needUseD3D11 = false ∧
    runSummary 100
        (runRequests 5 (instanceFor ["XR_KHR_D3D11_enable"] sampleInstanceEnv)
          [.getSystem XR_FORM_FACTOR_HEAD_MOUNTED_DISPLAY ⟨0, 7, 0⟩,
           .createSession ⟨7, .app 1⟩ sampleBindingOnly sampleSessionEnv])
      = some (true, [(true, some .d3d11Bindings)]) := by
  decide

/-- C3, amended: if the extension list passed at instance creation does not contain
the D3D12 extension name and the D3D11 graphics-requirements entry point was not
resolved when the instance was created, then for every subsequent sequence of
`xrGetSystem` and `xrCreateSession` calls whose `xrCreateSession` requests carry a
system id other than `XR_NULL_SYSTEM_ID`, whatever extension chain they carry, every
call returns, the layer is left as it was created (empty session table, no handled
system), and no `xrCreateSession` substitutes the graphics binding: each forwards the
caller's memory as it received it. -/
theorem C3_inert_without_d3d11_requirements (abi : LoaderAbi) (names : List String)
    (apiLayerInfo : Option XrApiLayerCreateInfo) (env : InstanceEnv) (L : OpenXrLayer)
    (hL : (xrCreateApiLayerInstance abi none names apiLayerInfo env).g_instance = some L)
    (_hnames : ∀ ext ∈ names, extLowerCase ext ≠ "xr_khr_d3d12_enable")
    (hunresolved : env.d3d11RequirementsResolved = false)
    (fuel : Nat) (reqs : List Request)
    (hids : ∀ req ∈ reqs, req.systemId? ≠ some XR_NULL_SYSTEM_ID) :
    ∃ results, runRequests fuel L reqs = some (L, results) ∧
      L.m_sessions = [] ∧ L.m_systemId = XR_NULL_SYSTEM_ID ∧
      ∀ r ∈ results, r.handled = false ∧ r.layer.m_sessions = [] ∧
        r.presented = some r.memory ∧ r.memory.d3d11Bindings.next = .null := by
  have hfresh := created_instance_fresh abi names apiLayerInfo env L hL
  rw [hunresolved] at hfresh
  subst hfresh
  obtain ⟨results, hrun, hres⟩ := runRequests_inert fuel reqs {} rfl rfl hids
  refine ⟨results, hrun, rfl, rfl, fun r hr => ?_⟩
  obtain ⟨h1, h2, h3, h4⟩ := hres r hr
  exact ⟨h1, by rw [h2], h3, h4⟩

/-- An instance of the amended C3: nothing is requested, the entry point is not
resolved, the system query answers `7`, and a session with a D3D12 binding is
requested on system `7`. -/
theorem C3_inert_without_d3d11_requirements_witness :
    ∃ results,
      runRequests 5 (instanceFor [] sampleInstanceEnvUnresolved)
          [.getSystem XR_FORM_FACTOR_HEAD_MOUNTED_DISPLAY ⟨0, 7, 0⟩,
           .createSession ⟨7, .app 1⟩ sampleBindingOnly sampleSessionEnv]
        = some (instanceFor [] sampleInstanceEnvUnresolved, results) ∧
      (instanceFor [] sampleInstanceEnvUnresolved).m_sessions = [] ∧
      (instanceFor [] sampleInstanceEnvUnresolved).m_systemId = XR_NULL_SYSTEM_ID ∧
      ∀ r ∈ results, r.handled = false ∧ r.layer.m_sessions = [] ∧
        r.presented = some r.memory ∧ r.memory.d3d11Bindings.next = .null :=
  C3_inert_without_d3d11_requirements sampleAbi [] sampleApiLayerInfo
    sampleInstanceEnvUnresolved (instanceFor [] sampleInstanceEnvUnresolved)
    (by decide) (by decide) (by decide) 5 _ (by decide)

/-! ## Lemmas on the tables -/

theorem HandleMap.find_insert_or_assign_self {α : Type} (m : HandleMap α) (k : Nat) (v : α) :
    HandleMap.find (HandleMap.insert_or_assign m k v) k = some v := by
  induction m with
  | nil => simp [HandleMap.insert_or_assign, HandleMap.find]
  | cons e rest ih =>
    obtain ⟨k', v'⟩ := e
    unfold HandleMap.insert_or_assign
    by_cases h1 : k < k'
    · simp [h1, HandleMap.find]
    · by_cases h2 : k = k'
      · simp [h2, HandleMap.find]
      · simp [h1, h2, HandleMap.find, ih]

theorem HandleMap.find_insert_or_assign_ne {α : Type} (m : HandleMap α) (k k' : Nat) (v : α)
    (h : k' ≠ k) :
    HandleMap.find (HandleMap.insert_or_assign m k v) k' = HandleMap.find m k' := by
  induction m with
  | nil => simp [HandleMap.insert_or_assign, HandleMap.find, h]
  | cons e rest ih =>
    obtain ⟨k0, v0⟩ := e
    unfold HandleMap.insert_or_assign
    by_cases h1 : k < k0
    · simp [h1, HandleMap.find, h]
    · by_cases h2 : k = k0
      · subst h2
        simp [HandleMap.find, h]
      · simp only [h1, h2, if_false, HandleMap.find, ih]

theorem HandleMap.find_erase_self {α : Type} (m : HandleMap α) (k : Nat) :
    HandleMap.find (HandleMap.erase m k) k = none := by
  induction m with
  | nil => simp [HandleMap.erase, HandleMap.find]
  | cons e rest ih =>
    obtain ⟨k0, v0⟩ := e
    unfold HandleMap.erase
    by_cases h : k = k0
    · simp [h] at ih ⊢
      exact ih
    · simp [h, HandleMap.find, ih]

theorem HandleMap.erase_insert_or_assign {α : Type} (m : HandleMap α) (k : Nat) (v : α) :
    HandleMap.erase (HandleMap.insert_or_assign m k v) k = HandleMap.erase m k := by
  induction m with
  | nil => simp [HandleMap.insert_or_assign, HandleMap.erase]
  | cons e rest ih =>
    obtain ⟨k0, v0⟩ := e
    unfold HandleMap.insert_or_assign
    by_cases h1 : k < k0
    · have hne : k ≠ k0 := by omega
      simp [h1, HandleMap.erase, hne]
    · by_cases h2 : k = k0
      · subst h2
        simp [HandleMap.erase]
      · simp [h1, h2, HandleMap.erase, ih]

theorem HandleMap.index_of_contains {α : Type} (m : HandleMap α) (k : Nat) (dflt : α)
    (h : HandleMap.contains m k = true) : HandleMap.index m k dflt = m := by
  simp [HandleMap.index, h]

theorem HandleMap.find_of_contains {α : Type} (m : HandleMap α) (k : Nat)
    (h : HandleMap.contains m k = true) : ∃ v, HandleMap.find m k = some v := by
  simpa [HandleMap.contains, Option.isSome_iff_exists] using h

/-! ## Lemmas on the chain walk and on `xrCreateSession` -/

theorem findD3D12Binding_of_chainFrom (mem : ChainMemory) (pprev : PtrLoc) :
    ∀ (fuel : Nat) (entry : Ptr) (l : List (Ptr × Nat)),
      mem.chainFrom fuel entry = some l →
      (∃ e, mem.findD3D12Binding fuel pprev entry = some (some (pprev, e)) ∧
          ∃ x ∈ l, x.2 = XR_TYPE_GRAPHICS_BINDING_D3D12_KHR) ∨
      (mem.findD3D12Binding fuel pprev entry = some none ∧
          ∀ x ∈ l, x.2 ≠ XR_TYPE_GRAPHICS_BINDING_D3D12_KHR) := by
  intro fuel
  induction fuel with
  | zero => intro entry l h; simp [ChainMemory.chainFrom] at h
  | succ n ih =>
    intro entry l h
    unfold ChainMemory.chainFrom at h
    unfold ChainMemory.findD3D12Binding
    by_cases hnull : entry = .null
    · simp only [hnull, if_true, Option.some.injEq] at h
      subst h
      right
      simp [hnull]
    · simp only [hnull, if_false] at h ⊢
      cases hd : mem.deref entry with
      | none => simp [hd] at h
      | some e =>
        simp only [hd, Option.map_eq_some'] at h
        obtain ⟨rest, hrest, hl⟩ := h
        subst hl
        by_cases ht : e.type = XR_TYPE_GRAPHICS_BINDING_D3D12_KHR
        · left
          exact ⟨e, by simp [ht], (entry, e.type), List.mem_cons_self _ _, ht⟩
        · simp only [ht, if_false]
          rcases ih e.next rest hrest with ⟨e', hf, x, hx, hxt⟩ | ⟨hf, hall⟩
          · left
            exact ⟨e', hf, x, List.mem_cons_of_mem _ hx, hxt⟩
          · right
            refine ⟨hf, fun x hx => ?_⟩
            rcases List.mem_cons.mp hx with h1 | h1
            · subst h1; exact ht
            · exact hall x h1

theorem store_createInfo_next_restore (mem : ChainMemory) (value : Ptr)
    (d : XrBaseInStructure) :
    ({ (mem.store .createInfo_next value) with d3d11Bindings := d }).store
        .createInfo_next mem.createInfo.next =
      { mem with d3d11Bindings := d } := by
  cases mem with
  | mk createInfo app d0 => cases createInfo; rfl

/-- What `xrCreateSession` does on a chain that ends: it returns or throws, the
caller's memory is as before, and the table changes only by the record of a handled,
successful creation. -/
theorem xrCreateSession_spec (L : OpenXrLayer) (fuel : Nat) (createInfo : XrSessionCreateInfo)
    (app : HandleMap XrBaseInStructure) (env : SessionEnv) (l : List (Ptr × Nat))
    (hchain : (ChainMemory.onEntry createInfo app).chain fuel = some l) :
    ∃ r, L.xrCreateSession fuel createInfo app env = some r ∧
      r.memory.createInfo = createInfo ∧ r.memory.app = app ∧
      (r.handled = true ↔
        (L.isSystemHandled createInfo.systemId = true ∧
          (∃ x ∈ l, x.2 = XR_TYPE_GRAPHICS_BINDING_D3D12_KHR) ∧ env.interopOk = true)) ∧
      (r.outcome = .returned env.result ∨
        (r.outcome = .threw ∧ r.handled = false ∧ r.presented = none ∧
          env.interopOk = false)) ∧
      (r.outcome = .returned env.result → r.presented.isSome = true) ∧
      (L.isSystemHandled createInfo.systemId = true →
        (∃ x ∈ l, x.2 = XR_TYPE_GRAPHICS_BINDING_D3D12_KHR) → env.interopOk = false →
        r.outcome = .threw) ∧
      (r.handled = true → XR_SUCCEEDED env.result = true →
        ∃ record : Session, record.xrSession = env.session ∧ record.fenceValue = 0 ∧
          r.layer = { L with m_sessions := L.m_sessions.insert_or_assign env.session record }) ∧
      (¬ (r.handled = true ∧ XR_SUCCEEDED env.result = true) → r.layer = L) := by
  unfold OpenXrLayer.xrCreateSession
  by_cases hsys : L.isSystemHandled createInfo.systemId = true
  · simp only [hsys, if_true]
    rcases findD3D12Binding_of_chainFrom (ChainMemory.onEntry createInfo app) .createInfo_next
        fuel createInfo.next l hchain with ⟨e, hf, hx⟩ | ⟨hf, hall⟩
    · simp only [hf]
      cases hok : env.interopOk
      · refine ⟨_, rfl, rfl, rfl, ?_, ?_, ?_, ?_, ?_, ?_⟩ <;> simp
      · simp only [Bool.not_true, Bool.false_eq_true, if_false, ChainMemory.load]
        rw [store_createInfo_next_restore]
        cases hres : XR_SUCCEEDED env.result
        · refine ⟨_, rfl, rfl, rfl, ?_, ?_, ?_, ?_, ?_, ?_⟩ <;> simp [hx]
        · refine ⟨_, rfl, rfl, rfl, ?_, ?_, ?_, ?_, ?_, ?_⟩ <;> simp [hx]
          exact ⟨_, rfl, rfl, rfl⟩
    · simp only [hf]
      refine ⟨_, rfl, rfl, rfl, ?_, ?_, ?_, ?_, ?_, ?_⟩ <;> simp
      all_goals
        intro x hx
        exact absurd rfl (hall (x, _) hx)
  · simp only [hsys, if_false]
    refine ⟨_, rfl, rfl, rfl, ?_, ?_, ?_, ?_, ?_, ?_⟩ <;> simp [hsys]

/-! ## The session bridge (C4, C5, C6) -/

/-- C4 fails on the code: the loop of `xrCreateSession` never advances `pprev`, so
the D3D11 binding is always written to `createInfo->next`. For the chain of three
structs `7`, D3D12 binding, `9` on the handled system, the next handler is presented
the chain D3D11 binding, `9`: the struct of type `7` that preceded the binding is
gone, where the claim has the chain `7`, D3D11 binding, `9`. -/
theorem C4_presented_chain_loses_predecessors :
    (ChainMemory.onEntry ⟨5, .app 1⟩ sampleBindingMiddle).chain 10 =
      some [(.app 1, 7), (.app 2, XR_TYPE_GRAPHICS_BINDING_D3D12_KHR), (.app 3, 9)] ∧
    presentedChain 10
        (sampleLayer.xrCreateSession 10 ⟨5, .app 1⟩ sampleBindingMiddle sampleSessionEnv) =
      some [(.d3d11Bindings, XR_TYPE_GRAPHICS_BINDING_D3D11_KHR), (.app 3, 9)] ∧
    presentedChain 10
        (sampleLayer.xrCreateSession 10 ⟨5, .app 1⟩ sampleBindingMiddle sampleSessionEnv) ≠
      some [(.app 1, 7), (.d3d11Bindings, XR_TYPE_GRAPHICS_BINDING_D3D11_KHR), (.app 3, 9)] := by
  decide

/-- C5: for every extension chain that ends, every layer state and every answer of
the platform and of the next handler (success or failure), `xrCreateSession` comes
back (it returns or throws) and the memory the caller observes is what it was before
the call: `createInfo` (hence `createInfo->next`) and every chain struct of the
application (type, next link and payload) are unchanged. -/
theorem C5_chain_restored (L : OpenXrLayer) (fuel : Nat) (createInfo : XrSessionCreateInfo)
    (app : HandleMap XrBaseInStructure) (env : SessionEnv) (l : List (Ptr × Nat))
    (hchain : (ChainMemory.onEntry createInfo app).chain fuel = some l) :
    ∃ r, L.xrCreateSession fuel createInfo app env = some r ∧
      r.memory.createInfo = createInfo ∧ r.memory.app = app := by
  obtain ⟨r, hr, h1, h2, -⟩ := xrCreateSession_spec L fuel createInfo app env l hchain
  exact ⟨r, hr, h1, h2⟩

/-- An instance of C5 where the binding is substituted and the forwarded creation
fails. -/
theorem C5_chain_restored_witness :
    ∃ r, sampleLayer.xrCreateSession 10 ⟨5, .app 1⟩ sampleBindingMiddle
        sampleSessionEnvFailing = some r ∧
      r.memory.createInfo = ⟨5, .app 1⟩ ∧ r.memory.app = sampleBindingMiddle :=
  C5_chain_restored sampleLayer 10 ⟨5, .app 1⟩ sampleBindingMiddle sampleSessionEnvFailing
    [(.app 1, 7), (.app 2, XR_TYPE_GRAPHICS_BINDING_D3D12_KHR), (.app 3, 9)] (by decide)

/-- C6: on a chain that ends, `xrCreateSession` comes back, and with `cond` standing
for "the system id is the handled system, the chain contains a D3D12 binding, the
call returned the forwarded result and that result is a success":
under `cond` the table afterwards is the table before with a record inserted under
the returned handle; otherwise (in particular when the system is handled but the
chain has no D3D12 binding, and when the forwarded creation fails) the whole layer,
so the session table, is unchanged and `isSessionHandled` answers as before for every
handle; and for a returned handle that had no record before, `isSessionHandled`
holds afterwards if and only if `cond`. -/
theorem C6_record_iff_handled_binding_success (L : OpenXrLayer) (fuel : Nat)
    (createInfo : XrSessionCreateInfo) (app : HandleMap XrBaseInStructure) (env : SessionEnv)
    (l : List (Ptr × Nat))
    (hchain : (ChainMemory.onEntry createInfo app).chain fuel = some l) :
    ∃ r, L.xrCreateSession fuel createInfo app env = some r ∧
      ((L.isSystemHandled createInfo.systemId = true ∧
          (∃ x ∈ l, x.2 = XR_TYPE_GRAPHICS_BINDING_D3D12_KHR) ∧
          r.outcome = .returned env.result ∧ XR_SUCCEEDED env.result = true) →
        ∃ record : Session, record.xrSession = env.session ∧
          r.layer.m_sessions = L.m_sessions.insert_or_assign env.session record ∧
          r.layer.m_sessions.find env.session = some record) ∧
      (¬ (L.isSystemHandled createInfo.systemId = true ∧
          (∃ x ∈ l, x.2 = XR_TYPE_GRAPHICS_BINDING_D3D12_KHR) ∧
          r.outcome = .returned env.result ∧ XR_SUCCEEDED env.result = true) →
        r.layer = L ∧ ∀ h, r.layer.isSessionHandled h = L.isSessionHandled h) ∧
      (L.isSessionHandled env.session = false →
        (r.layer.isSessionHandled env.session = true ↔
          (L.isSystemHandled createInfo.systemId = true ∧
            (∃ x ∈ l, x.2 = XR_TYPE_GRAPHICS_BINDING_D3D12_KHR) ∧
            r.outcome = .returned env.result ∧ XR_SUCCEEDED env.result = true))) := by
  obtain ⟨r, hr, -, -, hhandled, hout, -, hthrow, hins, hsame⟩ :=
    xrCreateSession_spec L fuel createInfo app env l hchain
  have hcond : (L.isSystemHandled createInfo.systemId = true ∧
      (∃ x ∈ l, x.2 = XR_TYPE_GRAPHICS_BINDING_D3D12_KHR) ∧
      r.outcome = .returned env.result ∧ XR_SUCCEEDED env.result = true) →
      r.handled = true ∧ XR_SUCCEEDED env.result = true := by
    rintro ⟨h1, h2, h3, h4⟩
    refine ⟨hhandled.mpr ⟨h1, h2, ?_⟩, h4⟩
    cases hok : env.interopOk
    · rw [hthrow h1 h2 hok] at h3
      cases h3
    · rfl
  have hcond2 : r.handled = true ∧ XR_SUCCEEDED env.result = true →
      (L.isSystemHandled createInfo.systemId = true ∧
      (∃ x ∈ l, x.2 = XR_TYPE_GRAPHICS_BINDING_D3D12_KHR) ∧
      r.outcome = .returned env.result ∧ XR_SUCCEEDED env.result = true) := by
    rintro ⟨h1, h2⟩
    obtain ⟨a, b, -⟩ := hhandled.mp h1
    refine ⟨a, b, ?_, h2⟩
    rcases hout with h | ⟨-, h, -⟩
    · exact h
    · rw [h1] at h
      cases h
  have hA : (L.isSystemHandled createInfo.systemId = true ∧
      (∃ x ∈ l, x.2 = XR_TYPE_GRAPHICS_BINDING_D3D12_KHR) ∧
      r.outcome = .returned env.result ∧ XR_SUCCEEDED env.result = true) →
      ∃ record : Session, record.xrSession = env.session ∧
        r.layer.m_sessions = L.m_sessions.insert_or_assign env.session record ∧
        r.layer.m_sessions.find env.session = some record := by
    intro hc
    obtain ⟨h1, h2⟩ := hcond hc
    obtain ⟨record, hrec, -, hlayer⟩ := hins h1 h2
    refine ⟨record, hrec, by rw [hlayer], ?_⟩
    rw [hlayer]
    exact HandleMap.find_insert_or_assign_self _ _ _
  have hB : ¬ (L.isSystemHandled createInfo.systemId = true ∧
      (∃ x ∈ l, x.2 = XR_TYPE_GRAPHICS_BINDING_D3D12_KHR) ∧
      r.outcome = .returned env.result ∧ XR_SUCCEEDED env.result = true) →
      r.layer = L := fun hc => hsame (fun h => hc (hcond2 h))
  refine ⟨r, hr, hA, fun hc => ⟨hB hc, fun h => by rw [hB hc]⟩, fun hfresh => ⟨?_, ?_⟩⟩
  · intro hnow
    by_contra hc
    rw [hB hc, hfresh] at hnow
    cases hnow
  · intro hc
    obtain ⟨record, -, -, hfind⟩ := hA hc
    simp [OpenXrLayer.isSessionHandled, HandleMap.contains, hfind]

/-- An instance of C6: on the handled system `5`, a chain without a D3D12 binding
and a successful forwarded creation. -/
theorem C6_record_iff_handled_binding_success_witness :
    ∃ r, sampleLayer.xrCreateSession 10 ⟨5, .app 3⟩ sampleBindingMiddle sampleSessionEnv
        = some r ∧
      ((sampleLayer.isSystemHandled 5 = true ∧
          (∃ x ∈ [(Ptr.app 3, 9)], x.2 = XR_TYPE_GRAPHICS_BINDING_D3D12_KHR) ∧
          r.outcome = .returned sampleSessionEnv.result ∧
          XR_SUCCEEDED sampleSessionEnv.result = true) →
        ∃ record : Session, record.xrSession = sampleSessionEnv.session ∧
          r.layer.m_sessions =
            sampleLayer.m_sessions.insert_or_assign sampleSessionEnv.session record ∧
          r.layer.m_sessions.find sampleSessionEnv.session = some record) ∧
      (¬ (sampleLayer.isSystemHandled 5 = true ∧
          (∃ x ∈ [(Ptr.app 3, 9)], x.2 = XR_TYPE_GRAPHICS_BINDING_D3D12_KHR) ∧
          r.outcome = .returned sampleSessionEnv.result ∧
          XR_SUCCEEDED sampleSessionEnv.result = true) →
        r.layer = sampleLayer ∧
          ∀ h, r.layer.isSessionHandled h = sampleLayer.isSessionHandled h) ∧
      (sampleLayer.isSessionHandled sampleSessionEnv.session = false →
        (r.layer.isSessionHandled sampleSessionEnv.session = true ↔
          (sampleLayer.isSystemHandled 5 = true ∧
            (∃ x ∈ [(Ptr.app 3, 9)], x.2 = XR_TYPE_GRAPHICS_BINDING_D3D12_KHR) ∧
            r.outcome = .returned sampleSessionEnv.result ∧
            XR_SUCCEEDED sampleSessionEnv.result = true))) :=
  C6_record_iff_handled_binding_success sampleLayer 10 ⟨5, .app 3⟩ sampleBindingMiddle
    sampleSessionEnv [(.app 3, 9)] (by decide)

/-! ## Lemmas on `xrEndFrame` and `xrDestroySession` -/

theorem xrEndFrame_handled (L : OpenXrLayer) (session : Nat) (record : Session) (env : FrameEnv)
    (hfind : L.m_sessions.find session = some record) :
    (L.xrEndFrame session env).2 =
      ({ L with m_sessions := L.m_sessions.insert_or_assign session
                  { record with fenceValue := (record.fenceValue + 1) % 2 ^ 64 } },
        frameCalls session record ((record.fenceValue + 1) % 2 ^ 64) env) := by
  have hc : HandleMap.contains L.m_sessions session = true := by
    simp [HandleMap.contains, hfind]
  unfold OpenXrLayer.xrEndFrame
  simp only [OpenXrLayer.isSessionHandled, hc, if_true, HandleMap.index_of_contains _ _ _ hc,
    HandleMap.ref, hfind, Option.getD_some, frameCalls]
  cases env.signalOk <;> cases env.waitOk <;> simp

theorem endFrames_handled (session : Nat) (envs : List FrameEnv) :
    ∀ (L : OpenXrLayer) (record : Session),
      L.m_sessions.find session = some record → record.fenceValue < 2 ^ 64 →
      (endFrames L session envs).1.m_sessions.find session =
          some { record with fenceValue := (record.fenceValue + envs.length) % 2 ^ 64 } ∧
      (endFrames L session envs).1.m_swapchains = L.m_swapchains ∧
      (endFrames L session envs).1.m_systemId = L.m_systemId ∧
      (endFrames L session envs).1.m_sessions.erase session = L.m_sessions.erase session := by
  induction envs with
  | nil =>
    intro L record hfind hlt
    refine ⟨?_, rfl, rfl, rfl⟩
    simp only [endFrames, List.length_nil, Nat.add_zero, Nat.mod_eq_of_lt hlt]
    exact hfind
  | cons env rest ih =>
    intro L record hfind hlt
    have h1 := xrEndFrame_handled L session record env hfind
    have hfind1 : (L.xrEndFrame session env).2.1.m_sessions.find session =
        some { record with fenceValue := (record.fenceValue + 1) % 2 ^ 64 } := by
      rw [h1]
      exact HandleMap.find_insert_or_assign_self _ _ _
    obtain ⟨hcount, hsw, hsys, her⟩ :=
      ih (L.xrEndFrame session env).2.1 _ hfind1 (Nat.mod_lt _ (by norm_num))
    have harith : ((record.fenceValue + 1) % 2 ^ 64 + rest.length) % 2 ^ 64 =
        (record.fenceValue + (rest.length + 1)) % 2 ^ 64 := by
      rw [Nat.add_mod, Nat.mod_mod, ← Nat.add_mod]
      congr 1
      omega
    refine ⟨?_, ?_, ?_, ?_⟩
    · simp only [endFrames, List.length_cons]
      rw [hcount]
      simp only [harith]
    · simp only [endFrames]
      rw [hsw, h1]
    · simp only [endFrames]
      rw [hsys, h1]
    · simp only [endFrames]
      rw [her, h1]
      exact HandleMap.erase_insert_or_assign _ _ _

theorem endFrames_calls_ok (session : Nat) (envs : List FrameEnv) :
    ∀ (L : OpenXrLayer) (record : Session),
      L.m_sessions.find session = some record →
      (∀ env ∈ envs, env.signalOk = true ∧ env.waitOk = true) →
      (endFrames L session envs).2 =
        (List.range envs.length).flatMap (fun i =>
          [Call.Signal record.d3d12Queue record.d3d12Fence
              ((record.fenceValue + i + 1) % 2 ^ 64),
           Call.Wait record.d3d11Context record.d3d11Fence
              ((record.fenceValue + i + 1) % 2 ^ 64),
           Call.next_xrEndFrame session]) := by
  induction envs with
  | nil => intro L record _ _; rfl
  | cons env rest ih =>
    intro L record hfind hok
    have h1 := xrEndFrame_handled L session record env hfind
    have hfind1 : (L.xrEndFrame session env).2.1.m_sessions.find session =
        some { record with fenceValue := (record.fenceValue + 1) % 2 ^ 64 } := by
      rw [h1]
      exact HandleMap.find_insert_or_assign_self _ _ _
    have hrest := ih (L.xrEndFrame session env).2.1 _ hfind1
      (fun e he => hok e (List.mem_cons_of_mem _ he))
    obtain ⟨hs, hw⟩ := hok env (List.mem_cons_self _ _)
    have hhead : (L.xrEndFrame session env).2.2 =
        [Call.Signal record.d3d12Queue record.d3d12Fence ((record.fenceValue + 1) % 2 ^ 64),
         Call.Wait record.d3d11Context record.d3d11Fence ((record.fenceValue + 1) % 2 ^ 64),
         Call.next_xrEndFrame session] := by
      rw [h1]
      simp [frameCalls, hs, hw]
    have harith : ∀ i, ((record.fenceValue + 1) % 2 ^ 64 + i + 1) % 2 ^ 64 =
        (record.fenceValue + (i + 1) + 1) % 2 ^ 64 := by
      intro i
      have : (record.fenceValue + 1) % 2 ^ 64 + i + 1 =
          (record.fenceValue + 1) % 2 ^ 64 + (i + 1) := by omega
      rw [this, Nat.add_mod, Nat.mod_mod, ← Nat.add_mod]
      congr 1
      omega
    simp only [endFrames, List.length_cons, List.range_succ_eq_map, List.flatMap_cons,
      List.flatMap_map, hhead, hrest, harith, Nat.add_zero, Nat.succ_eq_add_one]

theorem xrDestroySession_handled (L : OpenXrLayer) (session : Nat) (record : Session)
    (env : DestroyEnv) (hfind : L.m_sessions.find session = some record)
    (hres : XR_SUCCEEDED env.result = true) (hset : env.setEventOk = true) :
    L.xrDestroySession session env =
      (.returned env.result,
       { L with
           m_sessions := L.m_sessions.erase session,
           m_swapchains :=
             L.m_swapchains.filter (fun it => !(it.2.xrSession == record.xrSession)) },
       [Call.next_xrDestroySession session,
        Call.Signal record.d3d12Queue record.d3d12Fence ((record.fenceValue + 1) % 2 ^ 64),
        Call.SetEventOnCompletion record.d3d12Fence ((record.fenceValue + 1) % 2 ^ 64),
        Call.WaitForSingleObject, Call.Flush1 record.d3d11Context,
        Call.WaitForSingleObject]) := by
  have hc : HandleMap.contains L.m_sessions session = true := by
    simp [HandleMap.contains, hfind]
  unfold OpenXrLayer.xrDestroySession OpenXrLayer.cleanupSession
  simp only [OpenXrLayer.isSessionHandled, hc, hres, Bool.and_self, if_true,
    HandleMap.index_of_contains _ _ _ hc, HandleMap.ref, hfind, Option.getD_some, hset,
    Bool.not_true, Bool.false_eq_true, if_false, HandleMap.erase_insert_or_assign]
  rfl

theorem xrCreateSession_handled_record (L : OpenXrLayer) (fuel : Nat)
    (createInfo : XrSessionCreateInfo) (app : HandleMap XrBaseInStructure) (env : SessionEnv)
    (r : CreateSessionResult)
    (hr : L.xrCreateSession fuel createInfo app env = some r) (hh : r.handled = true)
    (hres : XR_SUCCEEDED env.result = true) :
    ∃ record : Session, record.xrSession = env.session ∧ record.fenceValue = 0 ∧
      r.layer.m_sessions.find env.session = some record := by
  unfold OpenXrLayer.xrCreateSession at hr
  by_cases hsys : L.isSystemHandled createInfo.systemId = true
  · simp only [hsys, if_true] at hr
    cases hf : (ChainMemory.onEntry createInfo app).findD3D12Binding fuel .createInfo_next
        createInfo.next with
    | none => simp [hf] at hr
    | some res =>
      cases res with
      | none =>
        simp only [hf, Option.some.injEq] at hr
        subst hr
        cases hh
      | some pe =>
        obtain ⟨pprev, entry⟩ := pe
        simp only [hf] at hr
        cases hok : env.interopOk
        · simp only [hok, Bool.not_false, if_true, Option.some.injEq] at hr
          subst hr
          cases hh
        · simp only [hok, Bool.not_true, Bool.false_eq_true, if_false] at hr
          cases hload : (ChainMemory.onEntry createInfo app).load pprev with
          | none => simp [hload] at hr
          | some restoreNext =>
            simp only [hload, Option.some.injEq] at hr
            subst hr
            simp only [hres, if_true]
            exact ⟨_, rfl, rfl, HandleMap.find_insert_or_assign_self _ _ _⟩
  · have hsys1 : L.isSystemHandled createInfo.systemId = false := by simpa using hsys
    simp only [hsys1, Bool.false_eq_true, if_false, Option.some.injEq] at hr
    subst hr
    cases hh

theorem exists_frames_of_length (n : Nat) : ∃ envs : List FrameEnv,
    envs.length = n ∧ ∀ env ∈ envs, env.signalOk = true ∧ env.waitOk = true :=
  ⟨List.replicate n sampleFrameEnv, List.length_replicate _ _, fun env he => by
    rw [List.eq_of_mem_replicate he]
    exact ⟨rfl, rfl⟩⟩

theorem sampleCreated_find : sampleCreated.m_sessions.find 100 = some sampleRecord := by
  decide

/-! ## The frame synchroniser (C7, C8) -/

/-- C7, as stated, fails at the end of the `UINT64` range: the session `100` of
`sampleCreated` has the counter `0` right after creation; after `2 ^ 64 - 1` calls of
`xrEndFrame` its counter is `2 ^ 64 - 1`, and the next `xrEndFrame` leaves the
counter `0`, not one greater. -/
theorem C7_counterexample_counter_wraps :
    fenceValueOf sampleCreated 100 = some 0 ∧
    ∃ envs : List FrameEnv, envs.length = 2 ^ 64 - 1 ∧
      fenceValueOf (endFrames sampleCreated 100 envs).1 100 = some (2 ^ 64 - 1) ∧
      fenceValueOf ((endFrames sampleCreated 100 envs).1.xrEndFrame 100 sampleFrameEnv).2.1 100
        = some 0 := by
  refine ⟨by decide, ?_⟩
  obtain ⟨envs, hlen, -⟩ := exists_frames_of_length (2 ^ 64 - 1)
  have hrec : sampleRecord.fenceValue = 0 := rfl
  have h1 := (endFrames_handled 100 envs sampleCreated sampleRecord sampleCreated_find
    (by rw [hrec]; norm_num)).1
  rw [hlen, hrec] at h1
  refine ⟨envs, hlen, ?_, ?_⟩
  · rw [fenceValueOf, h1]
    norm_num
  · rw [fenceValueOf, xrEndFrame_handled _ 100 _ sampleFrameEnv h1,
      HandleMap.find_insert_or_assign_self]
    norm_num

/-- C7, amended: for every handled session that was successfully created, the
record's fence counter is `0` right after creation, and every `xrEndFrame` call on a
session whose counter is below `2 ^ 64 - 1` leaves the counter exactly `1` greater
than it was before the call, whatever the platform and the next handler answer. -/
theorem C7_fence_counter_increments :
    (∀ (L : OpenXrLayer) (fuel : Nat) (createInfo : XrSessionCreateInfo)
        (app : HandleMap XrBaseInStructure) (env : SessionEnv) (r : CreateSessionResult),
        L.xrCreateSession fuel createInfo app env = some r → r.handled = true →
        XR_SUCCEEDED env.result = true → fenceValueOf r.layer env.session = some 0) ∧
    (∀ (L : OpenXrLayer) (session : Nat) (env : FrameEnv) (v : Nat),
        fenceValueOf L session = some v → v < 2 ^ 64 - 1 →
        fenceValueOf (L.xrEndFrame session env).2.1 session = some (v + 1)) := by
  constructor
  · intro L fuel createInfo app env r hr hh hres
    obtain ⟨record, -, h0, hfind⟩ :=
      xrCreateSession_handled_record L fuel createInfo app env r hr hh hres
    rw [fenceValueOf, hfind, Option.map_some', h0]
  · intro L session env v hv hlt
    unfold fenceValueOf at hv
    cases hfind : L.m_sessions.find session with
    | none => simp [hfind] at hv
    | some record =>
      simp only [hfind, Option.map_some', Option.some.injEq] at hv
      rw [fenceValueOf, xrEndFrame_handled L session record env hfind,
        HandleMap.find_insert_or_assign_self, Option.map_some', hv]
      have h64 : (2 : Nat) ^ 64 = 18446744073709551616 := by norm_num
      rw [Nat.mod_eq_of_lt (by omega)]

/-- An instance of the amended C7: the session created on `sampleLayer` has the
counter `0`, and `1` after its first `xrEndFrame`. -/
theorem C7_fence_counter_increments_witness :
    ∃ r, sampleLayer.xrCreateSession 5 ⟨5, .app 1⟩ sampleBindingOnly sampleSessionEnv = some r ∧
      fenceValueOf r.layer 100 = some 0 ∧
      fenceValueOf (r.layer.xrEndFrame 100 sampleFrameEnv).2.1 100 = some 1 := by
  refine ⟨_, rfl, ?_⟩
  have h0 := C7_fence_counter_increments.1 sampleLayer 5 ⟨5, .app 1⟩ sampleBindingOnly
    sampleSessionEnv _ rfl (by decide) (by decide)
  exact ⟨h0, C7_fence_counter_increments.2 _ 100 sampleFrameEnv 0 h0 (by norm_num)⟩

/-- C8, as stated, fails in two ways. A first `xrEndFrame` whose `Signal` fails
issues one signal and throws: no wait is issued and the call is not forwarded. And
after `2 ^ 64 - 1` calls in which every step succeeds, the next call, the
`2 ^ 64`-th, signals and waits with the value `0`. -/
theorem C8_counterexample_failed_signal_and_wrap :
    sampleCreated.xrEndFrame 100 { signalOk := false, waitOk := true, result := 0 } =
      (.threw,
       { sampleCreated with m_sessions := [(100, { sampleRecord with fenceValue := 1 })] },
       [Call.Signal 51 62 1]) ∧
    ∃ envs : List FrameEnv, envs.length = 2 ^ 64 - 1 ∧
      (∀ env ∈ envs, env.signalOk = true ∧ env.waitOk = true) ∧
      ((endFrames sampleCreated 100 envs).1.xrEndFrame 100 sampleFrameEnv).2.2 =
        [Call.Signal 51 62 0, Call.Wait 61 63 0, Call.next_xrEndFrame 100] := by
  refine ⟨by decide, ?_⟩
  obtain ⟨envs, hlen, hok⟩ := exists_frames_of_length (2 ^ 64 - 1)
  have hrec : sampleRecord.fenceValue = 0 := rfl
  have h1 := (endFrames_handled 100 envs sampleCreated sampleRecord sampleCreated_find
    (by rw [hrec]; norm_num)).1
  rw [hlen, hrec] at h1
  refine ⟨envs, hlen, hok, ?_⟩
  rw [xrEndFrame_handled _ 100 _ sampleFrameEnv h1]
  simp [frameCalls, sampleFrameEnv, sampleRecord]

/-- C8, amended: for every handled session whose counter is `0` (as it is right
after creation) and every `N < 2 ^ 64`, `N` calls of `xrEndFrame` in each of which
the `Signal` and the `Wait` succeed make exactly these calls, in this order: for
`i = 1 .. N` a `Signal` on the session's D3D12 queue with the value `i`, then a `Wait`
on its D3D11 context with the value `i`, then the forwarded `xrEndFrame`. So `N`
signals and `N` waits are issued, the `i`-th of each carries `i`, and within each call
the signal precedes the wait, which precedes the forwarding. -/
theorem C8_signal_wait_trace (L : OpenXrLayer) (session : Nat) (record : Session)
    (envs : List FrameEnv)
    (hfind : L.m_sessions.find session = some record)
    (hzero : record.fenceValue = 0)
    (hok : ∀ env ∈ envs, env.signalOk = true ∧ env.waitOk = true)
    (hN : envs.length < 2 ^ 64) :
    (endFrames L session envs).2 =
      (List.range envs.length).flatMap (fun i =>
        [Call.Signal record.d3d12Queue record.d3d12Fence (i + 1),
         Call.Wait record.d3d11Context record.d3d11Fence (i + 1),
         Call.next_xrEndFrame session]) := by
  rw [endFrames_calls_ok session envs L record hfind hok]
  have hfun : ∀ i ∈ List.range envs.length,
      [Call.Signal record.d3d12Queue record.d3d12Fence ((record.fenceValue + i + 1) % 2 ^ 64),
       Call.Wait record.d3d11Context record.d3d11Fence ((record.fenceValue + i + 1) % 2 ^ 64),
       Call.next_xrEndFrame session] =
      [Call.Signal record.d3d12Queue record.d3d12Fence (i + 1),
       Call.Wait record.d3d11Context record.d3d11Fence (i + 1),
       Call.next_xrEndFrame session] := by
    intro i hi
    have hi1 : i < envs.length := List.mem_range.mp hi
    have hlt : 0 + i + 1 < 2 ^ 64 := by omega
    rw [hzero, Nat.mod_eq_of_lt hlt, Nat.zero_add]
  generalize List.range envs.length = is at hfun ⊢
  induction is with
  | nil => rfl
  | cons i rest ih =>
    rw [List.flatMap_cons, List.flatMap_cons, hfun i (List.mem_cons_self _ _),
      ih (fun k hk => hfun k (List.mem_cons_of_mem _ hk))]

/-- An instance of the amended C8: two frames on the session `100` of
`sampleCreated`. -/
theorem C8_signal_wait_trace_witness :
    (endFrames sampleCreated 100 [sampleFrameEnv, sampleFrameEnv]).2 =
      [Call.Signal 51 62 1, Call.Wait 61 63 1, Call.next_xrEndFrame 100,
       Call.Signal 51 62 2, Call.Wait 61 63 2, Call.next_xrEndFrame 100] :=
  C8_signal_wait_trace sampleCreated 100 sampleRecord [sampleFrameEnv, sampleFrameEnv]
    (by decide) (by decide) (by decide) (by norm_num)

/-! ## Teardown (C9) -/

/-- C9, as stated, fails at the end of the `UINT64` range: when the session `100` of
`sampleCreated` has had `N = 2 ^ 64 - 1` calls of `xrEndFrame` and is destroyed
successfully, the teardown signal and the completion wait carry the value `0`, not
`N + 1`. -/
theorem C9_counterexample_teardown_wraps :
    ∃ envs : List FrameEnv, envs.length = 2 ^ 64 - 1 ∧
      ((endFrames sampleCreated 100 envs).1.xrDestroySession 100 sampleDestroyEnv).2.2 =
        [Call.next_xrDestroySession 100, Call.Signal 51 62 0,
         Call.SetEventOnCompletion 62 0, Call.WaitForSingleObject, Call.Flush1 61,
         Call.WaitForSingleObject] := by
  obtain ⟨envs, hlen, -⟩ := exists_frames_of_length (2 ^ 64 - 1)
  have hrec : sampleRecord.fenceValue = 0 := rfl
  have h1 := (endFrames_handled 100 envs sampleCreated sampleRecord sampleCreated_find
    (by rw [hrec]; norm_num)).1
  rw [hlen, hrec] at h1
  refine ⟨envs, hlen, ?_⟩
  rw [xrDestroySession_handled _ 100 _ sampleDestroyEnv h1 (by decide) (by decide)]
  simp [sampleRecord]

/-- C9, amended: when a handled session whose counter was `0` at creation has had
`N < 2 ^ 64 - 1` calls of `xrEndFrame` (whatever their outcome) and is destroyed with
a successful forwarded destroy and a successful `SetEventOnCompletion`, the call
returns the forwarded result, the teardown `Signal` on the D3D12 queue carries the
value `N + 1`, and the completion wait is registered for exactly that value, before
the two blocking waits and the flush. If moreover the session table held only this
session and every swapchain record was owned by it (no other session alive; so for a
session created and at once destroyed, `N = 0`, where the value is `1`), both tables
are empty afterwards. -/
theorem C9_teardown_fence_value (L : OpenXrLayer) (session : Nat) (record : Session)
    (envs : List FrameEnv) (env : DestroyEnv)
    (hfind : L.m_sessions.find session = some record)
    (hzero : record.fenceValue = 0)
    (hN : envs.length < 2 ^ 64 - 1)
    (hres : XR_SUCCEEDED env.result = true) (hset : env.setEventOk = true) :
    ((endFrames L session envs).1.xrDestroySession session env).1 = .returned env.result ∧
    ((endFrames L session envs).1.xrDestroySession session env).2.2 =
      [Call.next_xrDestroySession session,
       Call.Signal record.d3d12Queue record.d3d12Fence (envs.length + 1),
       Call.SetEventOnCompletion record.d3d12Fence (envs.length + 1),
       Call.WaitForSingleObject, Call.Flush1 record.d3d11Context,
       Call.WaitForSingleObject] ∧
    (L.m_sessions = [(session, record)] →
      (∀ it ∈ L.m_swapchains, it.2.xrSession = record.xrSession) →
      ((endFrames L session envs).1.xrDestroySession session env).2.1.m_sessions = [] ∧
      ((endFrames L session envs).1.xrDestroySession session env).2.1.m_swapchains = []) := by
  have h64 : (2 : Nat) ^ 64 = 18446744073709551616 := by norm_num
  obtain ⟨h1, hsw, -, her⟩ :=
    endFrames_handled session envs L record hfind (by rw [hzero]; norm_num)
  rw [xrDestroySession_handled _ session _ env h1 hres hset]
  have hv : (0 + envs.length) % 2 ^ 64 = envs.length := by
    rw [Nat.zero_add]
    exact Nat.mod_eq_of_lt (by omega)
  have hv1 : (envs.length + 1) % 2 ^ 64 = envs.length + 1 := Nat.mod_eq_of_lt (by omega)
  refine ⟨rfl, ?_, ?_⟩
  · simp only [hzero, hv, hv1]
  · intro hs hsc
    refine ⟨?_, ?_⟩
    · show HandleMap.erase (endFrames L session envs).1.m_sessions session = []
      rw [her, hs]
      simp [HandleMap.erase]
    · show List.filter _ (endFrames L session envs).1.m_swapchains = []
      rw [hsw, List.filter_eq_nil_iff]
      intro it hit
      simp [hsc it hit]

/-- The scenario of C9: the session `100` is created on `sampleLayer` and destroyed
at once; the drain uses the fence value `1` and both tables end empty. -/
theorem C9_teardown_fence_value_witness :
    ((endFrames sampleCreated 100 []).1.xrDestroySession 100 sampleDestroyEnv).1 =
      .returned 0 ∧
    ((endFrames sampleCreated 100 []).1.xrDestroySession 100 sampleDestroyEnv).2.2 =
      [Call.next_xrDestroySession 100, Call.Signal 51 62 1,
       Call.SetEventOnCompletion 62 1, Call.WaitForSingleObject, Call.Flush1 61,
       Call.WaitForSingleObject] ∧
    ((endFrames sampleCreated 100 []).1.xrDestroySession 100 sampleDestroyEnv).2.1.m_sessions
      = [] ∧
    ((endFrames sampleCreated 100 []).1.xrDestroySession 100 sampleDestroyEnv).2.1.m_swapchains
      = [] :=
  have h := C9_teardown_fence_value sampleCreated 100 sampleRecord [] sampleDestroyEnv
    (by decide) (by decide) (by norm_num) (by decide) (by decide)
  ⟨h.1, h.2.1, h.2.2 (by decide) (by decide)⟩

/-! ## The swapchain image importer (C10) -/

theorem importLoop_completed (d3d11Images : List Nat) (importTexture : Nat → Option Nat) :
    ∀ (n i : Nat) (textures images textures1 images1 : List Nat),
      OpenXrLayer.importLoop d3d11Images importTexture n i textures images =
        (true, textures1, images1) →
      ∃ resources : List Nat, resources.length = n ∧
        textures1 = textures ++ resources ∧ images1 = images ++ resources ∧
        ∀ j, j < n → d3d11Images[i + j]?.bind importTexture = resources[j]? := by
  intro n
  induction n with
  | zero =>
    intro i textures images textures1 images1 h
    simp only [OpenXrLayer.importLoop, Prod.mk.injEq, true_and] at h
    exact ⟨[], rfl, by simp [h.1], by simp [h.2], fun j hj => absurd hj (Nat.not_lt_zero j)⟩
  | succ n ih =>
    intro i textures images textures1 images1 h
    unfold OpenXrLayer.importLoop at h
    cases hget : d3d11Images[i]? with
    | none => simp [hget] at h
    | some texture =>
      simp only [hget] at h
      cases himp : importTexture texture with
      | none => simp [himp] at h
      | some d3d12Resource =>
        simp only [himp] at h
        obtain ⟨rest, hlen, ht, hi, hall⟩ := ih (i + 1) _ _ _ _ h
        refine ⟨d3d12Resource :: rest, by simp [hlen], by simp [ht], by simp [hi], ?_⟩
        intro j hj
        cases j with
        | zero => simp [hget, himp]
        | succ k =>
          have := hall k (by omega)
          rw [show i + (k + 1) = i + 1 + k by omega, this]
          simp

/-- C10, as stated, fails: on the handled swapchain `3`, whose list is empty, a
successful call with `imageCapacityInput = 3` for which the runtime reports two
images appends two entries to the list and writes two pointers, not three. -/
theorem C10_counterexample_capacity_above_count :
    (sampleWithSwapchain.m_swapchains.find 3).map (·.textures) = some [] ∧
    (sampleWithSwapchain.xrEnumerateSwapchainImages 3 3 sampleEnumerateEnv).1 = .returned 0 ∧
    ((sampleWithSwapchain.xrEnumerateSwapchainImages 3 3
        sampleEnumerateEnv).2.1.m_swapchains.find 3).map (·.textures) = some [110, 111] ∧
    (sampleWithSwapchain.xrEnumerateSwapchainImages 3 3 sampleEnumerateEnv).2.2 = [110, 111] := by
  decide

/-- C10, amended: for every handled swapchain, `xrEnumerateSwapchainImages` with
`imageCapacityInput = 0` only forwards the query: it returns the forwarded result,
leaves the layer (so the imported-resource list) unchanged and writes nothing; and a
call with `imageCapacityInput = K`, nonzero, that returns a success appends exactly
`imageCountOutput` entries to the list, the count the runtime reports, which is at
most `K`, and writes exactly as many resource pointers to the caller's array, where
entry `i` and output `i` are both the import of the `i`-th D3D11 image returned by the
runtime. -/
theorem C10_enumerate_imports_reported_count (L : OpenXrLayer) (swapchain : Nat)
    (state : Swapchain) (hfind : L.m_swapchains.find swapchain = some state) :
    (∀ env : EnumerateEnv,
        L.xrEnumerateSwapchainImages swapchain 0 env = (.returned env.result, L, [])) ∧
    (∀ (K : Nat) (env : EnumerateEnv), K ≠ 0 →
        (L.xrEnumerateSwapchainImages swapchain K env).1 = .returned env.result →
        XR_SUCCEEDED env.result = true →
        ∃ resources : List Nat,
          resources.length = env.imageCountOutput ∧ env.imageCountOutput ≤ K ∧
          (L.xrEnumerateSwapchainImages swapchain K env).2.1.m_swapchains.find swapchain =
            some { state with textures := state.textures ++ resources } ∧
          (L.xrEnumerateSwapchainImages swapchain K env).2.2 = resources ∧
          ∀ i, i < env.imageCountOutput →
            env.d3d11Images[i]?.bind env.importTexture = resources[i]?) := by
  have hc : HandleMap.contains L.m_swapchains swapchain = true := by
    simp [HandleMap.contains, hfind]
  constructor
  · intro env
    simp [OpenXrLayer.xrEnumerateSwapchainImages]
  · intro K env hK hret hres
    unfold OpenXrLayer.xrEnumerateSwapchainImages at hret ⊢
    have hK1 : (K == 0) = false := by simpa using hK
    simp only [OpenXrLayer.isSwapchainHandled, hc, Bool.not_true, hK1, Bool.or_self,
      Bool.false_eq_true, if_false, hres, if_true, HandleMap.index_of_contains _ _ _ hc,
      HandleMap.ref, hfind, Option.getD_some] at hret ⊢
    cases hloop : OpenXrLayer.importLoop (List.take K env.d3d11Images) env.importTexture
        env.imageCountOutput 0 state.textures [] with
    | mk completed rest =>
      obtain ⟨textures1, images1⟩ := rest
      simp only [hloop] at hret ⊢
      cases completed with
      | false => simp at hret
      | true =>
        obtain ⟨resources, hlen, ht, hi, hall⟩ :=
          importLoop_completed _ _ _ _ _ _ _ _ hloop
        have hle : env.imageCountOutput ≤ K := by
          by_contra hgt
          have h1 := hall K (by omega)
          have h2 : resources[K]? ≠ none := by
            rw [Ne, List.getElem?_eq_none_iff]
            omega
          rw [Nat.zero_add, List.getElem?_take_eq_none (le_refl K)] at h1
          exact h2 h1.symm
        refine ⟨resources, hlen, hle, ?_, ?_, ?_⟩
        · rw [HandleMap.find_insert_or_assign_self, ht]
        · simp [hi]
        · intro i hi1
          have h1 := hall i hi1
          rw [Nat.zero_add, List.getElem?_take_of_lt (by omega)] at h1
          exact h1

/-- An instance of the amended C10 on the swapchain `3`: the count query changes
nothing, and a successful call with capacity `3` for two reported images appends the
two imports. -/
theorem C10_enumerate_imports_reported_count_witness :
    (∀ env : EnumerateEnv,
        sampleWithSwapchain.xrEnumerateSwapchainImages 3 0 env =
          (.returned env.result, sampleWithSwapchain, [])) ∧
    ∃ resources : List Nat,
      resources.length = sampleEnumerateEnv.imageCountOutput ∧
      sampleEnumerateEnv.imageCountOutput ≤ 3 ∧
      (sampleWithSwapchain.xrEnumerateSwapchainImages 3 3
          sampleEnumerateEnv).2.1.m_swapchains.find 3 =
        some { sampleSwapchainRecord with
                 textures := sampleSwapchainRecord.textures ++ resources } ∧
      (sampleWithSwapchain.xrEnumerateSwapchainImages 3 3 sampleEnumerateEnv).2.2 = resources ∧
      ∀ i, i < sampleEnumerateEnv.imageCountOutput →
        sampleEnumerateEnv.d3d11Images[i]?.bind sampleEnumerateEnv.importTexture =
          resources[i]? :=
  have h := C10_enumerate_imports_reported_count sampleWithSwapchain 3 sampleSwapchainRecord
    (by decide)
  ⟨h.1, h.2 3 sampleEnumerateEnv (by decide) (by decide) (by decide)⟩

/-! ## Validation of the negotiation data (C14) -/

theorem validationFailed_iff_malformed (abi : LoaderAbi)
    (apiLayerInfo : Option XrApiLayerCreateInfo) :
    validationFailed abi apiLayerInfo = true ↔ negotiationMalformed abi apiLayerInfo := by
  cases apiLayerInfo with
  | none => simp [validationFailed, negotiationMalformed]
  | some info =>
    cases hn : info.nextInfo with
    | nil => simp [validationFailed, negotiationMalformed, hn]
    | cons nextInfo rest =>
      simp only [validationFailed, negotiationMalformed, hn, Bool.or_eq_true, bne_iff_ne,
        ne_eq, Bool.not_eq_true', or_assoc]

/-- C14: whenever the negotiation data is malformed in one of the listed ways,
`xrCreateApiLayerInstance` returns `XR_ERROR_INITIALIZATION_FAILED`, does not call the
next layer's creation function, leaves the singleton of the layer as it was and
attempts no cleanup; and when none of them holds, the validation does not reject and
the next layer's creation function is called, once, with the rewritten name list and
the next-info link advanced by one. -/
theorem C14_malformed_negotiation_rejected (abi : LoaderAbi) (g : Option OpenXrLayer)
    (names : List String) (apiLayerInfo : Option XrApiLayerCreateInfo) (env : InstanceEnv) :
    (negotiationMalformed abi apiLayerInfo →
      xrCreateApiLayerInstance abi g names apiLayerInfo env =
        { result := XR_ERROR_INITIALIZATION_FAILED, forwarded := none, g_instance := g,
          cleanup := false }) ∧
    (¬ negotiationMalformed abi apiLayerInfo →
      validationFailed abi apiLayerInfo = false ∧
      ∃ info, apiLayerInfo = some info ∧
        (xrCreateApiLayerInstance abi g names apiLayerInfo env).forwarded =
          some (chainEnabledExtensionNames names,
                { info with nextInfo := info.nextInfo.tail })) := by
  constructor
  · intro hbad
    have hv := (validationFailed_iff_malformed abi apiLayerInfo).mpr hbad
    simp [xrCreateApiLayerInstance, hv]
  · intro hgood
    have hv : validationFailed abi apiLayerInfo = false := by
      cases h : validationFailed abi apiLayerInfo
      · rfl
      · exact absurd ((validationFailed_iff_malformed abi apiLayerInfo).mp h) hgood
    refine ⟨hv, ?_⟩
    cases apiLayerInfo with
    | none => simp [validationFailed] at hv
    | some info =>
      refine ⟨info, rfl, ?_⟩
      unfold xrCreateApiLayerInstance
      rw [hv]
      simp only [Bool.false_eq_true, if_false]
      split
      · split <;> rfl
      · rfl

/-- Two instances of C14: a version tag of `2` is rejected without a call to the next
layer, and the sample negotiation data is accepted and forwarded. -/
theorem C14_malformed_negotiation_rejected_witness :
    xrCreateApiLayerInstance sampleAbi none ["XR_KHR_D3D12_enable"]
        sampleApiLayerInfoBadVersion sampleInstanceEnv =
      { result := XR_ERROR_INITIALIZATION_FAILED, forwarded := none, g_instance := none,
        cleanup := false } ∧
    validationFailed sampleAbi sampleApiLayerInfo = false ∧
    ∃ info, sampleApiLayerInfo = some info ∧
      (xrCreateApiLayerInstance sampleAbi none ["XR_KHR_D3D12_enable"] sampleApiLayerInfo
          sampleInstanceEnv).forwarded =
        some (chainEnabledExtensionNames ["XR_KHR_D3D12_enable"],
              { info with nextInfo := info.nextInfo.tail }) :=
  ⟨(C14_malformed_negotiation_rejected sampleAbi none ["XR_KHR_D3D12_enable"]
      sampleApiLayerInfoBadVersion sampleInstanceEnv).1
      (by simp [negotiationMalformed, sampleApiLayerInfoBadVersion,
        XR_API_LAYER_CREATE_INFO_STRUCT_VERSION]),
   (C14_malformed_negotiation_rejected sampleAbi none ["XR_KHR_D3D12_enable"]
      sampleApiLayerInfo sampleInstanceEnv).2
      (by simp [negotiationMalformed, sampleApiLayerInfo, sampleAbi,
        XR_LOADER_INTERFACE_STRUCT_API_LAYER_CREATE_INFO,
        XR_API_LAYER_CREATE_INFO_STRUCT_VERSION,
        XR_LOADER_INTERFACE_STRUCT_API_LAYER_NEXT_INFO,
        XR_API_LAYER_NEXT_INFO_STRUCT_VERSION])⟩

/-! ## The handled system (C15) -/

theorem xrGetSystem_cases (L : OpenXrLayer) (formFactor : Nat) (env : SystemEnv) :
    (L.xrGetSystem formFactor env = (.returned env.result, { L with m_systemId := env.systemId }) ∧
      XR_SUCCEEDED env.result = true ∧ formFactor = XR_FORM_FACTOR_HEAD_MOUNTED_DISPLAY ∧
      L.xrGetD3D11GraphicsRequirementsKHR = true ∧ XR_FAILED env.propertiesResult = false) ∨
    (L.xrGetSystem formFactor env = (.threw, L) ∧
      XR_SUCCEEDED env.result = true ∧ formFactor = XR_FORM_FACTOR_HEAD_MOUNTED_DISPLAY ∧
      L.xrGetD3D11GraphicsRequirementsKHR = true ∧ XR_FAILED env.propertiesResult = true) ∨
    (L.xrGetSystem formFactor env = (.returned env.result, L) ∧
      ¬ (XR_SUCCEEDED env.result = true ∧ formFactor = XR_FORM_FACTOR_HEAD_MOUNTED_DISPLAY ∧
        L.xrGetD3D11GraphicsRequirementsKHR = true)) := by
  unfold OpenXrLayer.xrGetSystem
  by_cases h : (XR_SUCCEEDED env.result && formFactor == XR_FORM_FACTOR_HEAD_MOUNTED_DISPLAY &&
      L.xrGetD3D11GraphicsRequirementsKHR) = true
  · have h1 := h
    simp only [Bool.and_eq_true, beq_iff_eq] at h1
    obtain ⟨⟨hs, hf⟩, hg⟩ := h1
    simp only [h, if_true]
    cases hp : XR_FAILED env.propertiesResult
    · left
      exact ⟨by simp, hs, hf, hg, rfl⟩
    · right; left
      exact ⟨by simp, hs, hf, hg, rfl⟩
  · right; right
    refine ⟨by simp only [h, Bool.false_eq_true, if_false], ?_⟩
    rintro ⟨hs, hf, hg⟩
    apply h
    simp [hs, hf, hg]

theorem xrCreateSession_layer_fields (L : OpenXrLayer) (fuel : Nat)
    (createInfo : XrSessionCreateInfo) (app : HandleMap XrBaseInStructure) (env : SessionEnv)
    (r : CreateSessionResult)
    (hr : L.xrCreateSession fuel createInfo app env = some r) :
    r.layer.m_systemId = L.m_systemId ∧
    r.layer.xrGetD3D11GraphicsRequirementsKHR = L.xrGetD3D11GraphicsRequirementsKHR ∧
    r.layer.m_swapchains = L.m_swapchains ∧
    (r.layer.m_sessions = L.m_sessions ∨
      ∃ record : Session, record.xrSession = env.session ∧
        r.layer.m_sessions = L.m_sessions.insert_or_assign env.session record) ∧
    (r.handled = true → L.isSystemHandled createInfo.systemId = true) := by
  unfold OpenXrLayer.xrCreateSession at hr
  by_cases hsys : L.isSystemHandled createInfo.systemId = true
  · simp only [hsys, if_true] at hr
    cases hf : (ChainMemory.onEntry createInfo app).findD3D12Binding fuel .createInfo_next
        createInfo.next with
    | none => simp [hf] at hr
    | some res =>
      cases res with
      | none =>
        simp only [hf, Option.some.injEq] at hr
        subst hr
        exact ⟨rfl, rfl, rfl, Or.inl rfl, fun _ => hsys⟩
      | some pe =>
        obtain ⟨pprev, entry⟩ := pe
        simp only [hf] at hr
        cases hok : env.interopOk
        · simp only [hok, Bool.not_false, if_true, Option.some.injEq] at hr
          subst hr
          exact ⟨rfl, rfl, rfl, Or.inl rfl, fun _ => hsys⟩
        · simp only [hok, Bool.not_true, Bool.false_eq_true, if_false] at hr
          cases hload : (ChainMemory.onEntry createInfo app).load pprev with
          | none => simp [hload] at hr
          | some restoreNext =>
            simp only [hload, Option.some.injEq] at hr
            subst hr
            cases hres : XR_SUCCEEDED env.result
            · refine ⟨?_, ?_, ?_, Or.inl ?_, fun _ => hsys⟩ <;> simp
            · refine ⟨?_, ?_, ?_, Or.inr ⟨⟨env.session, env.d3d11Device, env.d3d11Context,
                  entry.device, entry.queue, env.d3d11Fence, env.d3d12Fence, 0⟩, rfl, ?_⟩,
                fun _ => hsys⟩ <;> simp
  · have hsys1 : L.isSystemHandled createInfo.systemId = false := by simpa using hsys
    simp only [hsys1, Bool.false_eq_true, if_false, Option.some.injEq] at hr
    subst hr
    exact ⟨rfl, rfl, rfl, Or.inl rfl, fun h => by cases h⟩

theorem runRequests_systemId (fuel : Nat) (reqs : List Request) :
    ∀ (L0 L : OpenXrLayer) (results : List CreateSessionResult),
      runRequests fuel L0 reqs = some (L, results) →
      L.xrGetD3D11GraphicsRequirementsKHR = L0.xrGetD3D11GraphicsRequirementsKHR ∧
      (L.m_systemId = L0.m_systemId ∨
        ∃ formFactor env, Request.getSystem formFactor env ∈ reqs ∧
          formFactor = XR_FORM_FACTOR_HEAD_MOUNTED_DISPLAY ∧
          XR_SUCCEEDED env.result = true ∧
          L0.xrGetD3D11GraphicsRequirementsKHR = true ∧
          XR_FAILED env.propertiesResult = false ∧
          env.systemId = L.m_systemId) := by
  induction reqs with
  | nil =>
    intro L0 L results h
    simp only [runRequests, Option.some.injEq, Prod.mk.injEq] at h
    rw [← h.1]
    exact ⟨rfl, Or.inl rfl⟩
  | cons req rest ih =>
    intro L0 L results h
    cases req with
    | getSystem formFactor env =>
      simp only [runRequests] at h
      obtain ⟨hg, hid⟩ := ih _ L results h
      rcases xrGetSystem_cases L0 formFactor env with
        ⟨heq, hs, hf, hgate, hp⟩ | ⟨heq, -⟩ | ⟨heq, -⟩
      · rw [heq] at hg hid
        refine ⟨hg, ?_⟩
        rcases hid with hid | ⟨ff, e, hmem, h1, h2, h3, h4, h5⟩
        · right
          exact ⟨formFactor, env, List.mem_cons_self _ _, hf, hs, hgate, hp, hid.symm⟩
        · right
          exact ⟨ff, e, List.mem_cons_of_mem _ hmem, h1, h2, h3, h4, h5⟩
      all_goals
        rw [heq] at hg hid
        refine ⟨hg, ?_⟩
        rcases hid with hid | ⟨ff, e, hmem, h1, h2, h3, h4, h5⟩
        · exact Or.inl hid
        · right
          exact ⟨ff, e, List.mem_cons_of_mem _ hmem, h1, h2, h3, h4, h5⟩
    | createSession createInfo app env =>
      simp only [runRequests] at h
      cases hr : L0.xrCreateSession fuel createInfo app env with
      | none => simp [hr] at h
      | some r =>
        simp only [hr, Option.map_eq_some'] at h
        obtain ⟨out, hout, hpair⟩ := h
        obtain ⟨hsysid, hgate, -, -, -⟩ :=
          xrCreateSession_layer_fields L0 fuel createInfo app env r hr
        have hL : out.1 = L := (Prod.mk.inj hpair).1
        obtain ⟨hg, hid⟩ := ih r.layer out.1 out.2 (by rw [hout])
        rw [hL, hgate] at hg
        rw [hL, hsysid, hgate] at hid
        refine ⟨hg, ?_⟩
        rcases hid with hid | ⟨ff, e, hmem, h1, h2, h3, h4, h5⟩
        · exact Or.inl hid
        · right
          exact ⟨ff, e, List.mem_cons_of_mem _ hmem, h1, h2, h3, h4, h5⟩

/-- C15, as stated, fails in two ways. When the forwarded `xrGetSystem` succeeds for
a head-mounted display on a layer with the D3D11 entry point, and the properties
query made next fails, `xrGetSystem` throws: it does not return the forwarded result
`XR_SUCCESS`. And on a fresh layer, with no `xrGetSystem` call at all, a session
requested for the system id `XR_NULL_SYSTEM_ID` with a D3D12 binding is treated as
handled: the binding is substituted and a record is inserted. -/
theorem C15_counterexample_throw_and_null_system :
    sampleFreshLayer.xrGetSystem XR_FORM_FACTOR_HEAD_MOUNTED_DISPLAY
        sampleSystemEnvNoProperties = (.threw, sampleFreshLayer) ∧
    XR_SUCCEEDED sampleSystemEnvNoProperties.result = true ∧
    runSummary 100
        (runRequests 5 sampleFreshLayer
          [.createSession ⟨XR_NULL_SYSTEM_ID, .app 1⟩ sampleBindingOnly sampleSessionEnv])
      = some (true, [(true, some .d3d11Bindings)]) := by
  decide

/-- C15, amended. For every `xrGetSystem` call: the handled system id changes only
when the forwarded query succeeded, the form factor is head-mounted display and the
D3D11 requirements entry point was resolved, and it then is the returned id; in every
other case the call returns the forwarded result and leaves the layer unchanged;
whenever the call returns, it returns the forwarded result; and it throws only when
the properties query fails, leaving the layer unchanged. For every sequence of
`xrGetSystem` and `xrCreateSession` calls on a layer that starts with no handled
system: an `xrCreateSession` that follows is treated as handled for a system id other
than `XR_NULL_SYSTEM_ID` only if that id was returned by an earlier successful
`xrGetSystem` for a head-mounted display with the entry point resolved and a
successful properties query. -/
theorem C15_handled_system_gate :
    (∀ (L : OpenXrLayer) (formFactor : Nat) (env : SystemEnv),
      ((L.xrGetSystem formFactor env).2.m_systemId ≠ L.m_systemId →
        XR_SUCCEEDED env.result = true ∧ formFactor = XR_FORM_FACTOR_HEAD_MOUNTED_DISPLAY ∧
        L.xrGetD3D11GraphicsRequirementsKHR = true ∧
        (L.xrGetSystem formFactor env).2.m_systemId = env.systemId) ∧
      (¬ (XR_SUCCEEDED env.result = true ∧ formFactor = XR_FORM_FACTOR_HEAD_MOUNTED_DISPLAY ∧
          L.xrGetD3D11GraphicsRequirementsKHR = true) →
        L.xrGetSystem formFactor env = (.returned env.result, L)) ∧
      (∀ result, (L.xrGetSystem formFactor env).1 = .returned result → result = env.result) ∧
      ((L.xrGetSystem formFactor env).1 = .threw →
        XR_FAILED env.propertiesResult = true ∧ (L.xrGetSystem formFactor env).2 = L)) ∧
    (∀ (fuel : Nat) (L0 L : OpenXrLayer) (reqs : List Request)
        (results : List CreateSessionResult) (createInfo : XrSessionCreateInfo)
        (app : HandleMap XrBaseInStructure) (env : SessionEnv) (r : CreateSessionResult),
      L0.m_systemId = XR_NULL_SYSTEM_ID →
      runRequests fuel L0 reqs = some (L, results) →
      L.xrCreateSession fuel createInfo app env = some r →
      r.handled = true →
      createInfo.systemId ≠ XR_NULL_SYSTEM_ID →
      ∃ formFactor e, Request.getSystem formFactor e ∈ reqs ∧
        formFactor = XR_FORM_FACTOR_HEAD_MOUNTED_DISPLAY ∧
        XR_SUCCEEDED e.result = true ∧
        L0.xrGetD3D11GraphicsRequirementsKHR = true ∧
        XR_FAILED e.propertiesResult = false ∧
        e.systemId = createInfo.systemId) := by
  constructor
  · intro L formFactor env
    rcases xrGetSystem_cases L formFactor env with
      ⟨heq, hs, hf, hg, -⟩ | ⟨heq, -, -, -, hp⟩ | ⟨heq, hnot⟩
    · rw [heq]
      refine ⟨fun _ => ⟨hs, hf, hg, rfl⟩, fun hn => absurd ⟨hs, hf, hg⟩ hn, ?_, ?_⟩
      · intro result h
        cases h
        rfl
      · intro h
        cases h
    · rw [heq]
      refine ⟨fun h => absurd rfl h, fun hn => ?_, ?_, fun _ => ⟨hp, rfl⟩⟩
      · rcases xrGetSystem_cases L formFactor env with ⟨-, hs, hf, hg, -⟩ | ⟨-, hs, hf, hg,
          -⟩ | ⟨h3, -⟩
        · exact absurd ⟨hs, hf, hg⟩ hn
        · exact absurd ⟨hs, hf, hg⟩ hn
        · rw [heq] at h3
          cases h3
      · intro result h
        cases h
    · rw [heq]
      refine ⟨fun h => absurd rfl h, fun _ => rfl, ?_, ?_⟩
      · intro result h
        cases h
        rfl
      · intro h
        cases h
  · intro fuel L0 L reqs results createInfo app env r h0 hrun hr hh hne
    obtain ⟨-, -, -, -, hsys⟩ := xrCreateSession_layer_fields L fuel createInfo app env r hr
    have hid : createInfo.systemId = L.m_systemId := by
      simpa [OpenXrLayer.isSystemHandled] using hsys hh
    obtain ⟨-, hrem⟩ := runRequests_systemId fuel reqs L0 L results hrun
    rcases hrem with hsame | ⟨ff, e, hmem, h1, h2, h3, h4, h5⟩
    · rw [hid, hsame, h0] at hne
      exact absurd rfl hne
    · exact ⟨ff, e, hmem, h1, h2, h3, h4, by rw [h5, hid]⟩

/-- An instance of the amended C15: a query for the form factor `2` leaves the layer
unchanged, and after a head-mounted query that returns the id `7` a session requested
for system `7` with a D3D12 binding is handled, the id having been remembered. -/
theorem C15_handled_system_gate_witness :
    sampleFreshLayer.xrGetSystem 2 sampleSystemEnv = (.returned 0, sampleFreshLayer) ∧
    ∃ formFactor e,
      Request.getSystem formFactor e ∈
        [Request.getSystem XR_FORM_FACTOR_HEAD_MOUNTED_DISPLAY sampleSystemEnv] ∧
      formFactor = XR_FORM_FACTOR_HEAD_MOUNTED_DISPLAY ∧
      XR_SUCCEEDED e.result = true ∧
      sampleFreshLayer.xrGetD3D11GraphicsRequirementsKHR = true ∧
      XR_FAILED e.propertiesResult = false ∧
      e.systemId = 7 :=
  ⟨(C15_handled_system_gate.1 sampleFreshLayer 2 sampleSystemEnv).2.1 (by decide),
   C15_handled_system_gate.2 5 sampleFreshLayer
     { sampleFreshLayer with m_systemId := 7 }
     [Request.getSystem XR_FORM_FACTOR_HEAD_MOUNTED_DISPLAY sampleSystemEnv] []
     ⟨7, .app 1⟩ sampleBindingOnly sampleSessionEnv _ rfl rfl rfl (by decide) (by decide)⟩

/-! ## Further lemmas on the tables -/

theorem HandleMap.mem_insert_or_assign {α : Type} (m : HandleMap α) (k : Nat) (v : α)
    (x : Nat × α) (hx : x ∈ HandleMap.insert_or_assign m k v) : x = (k, v) ∨ x ∈ m := by
  induction m with
  | nil =>
    simp only [HandleMap.insert_or_assign, List.mem_singleton] at hx
    exact Or.inl hx
  | cons e rest ih =>
    obtain ⟨k0, v0⟩ := e
    unfold HandleMap.insert_or_assign at hx
    by_cases h1 : k < k0
    · simp only [h1, if_true, List.mem_cons] at hx
      rcases hx with h | h | h
      · exact Or.inl h
      · exact Or.inr (h ▸ List.mem_cons_self _ _)
      · exact Or.inr (List.mem_cons_of_mem _ h)
    · by_cases h2 : k = k0
      · subst h2
        simp only [Nat.lt_irrefl, if_false, if_true, List.mem_cons] at hx
        rcases hx with h | h
        · exact Or.inl h
        · exact Or.inr (List.mem_cons_of_mem _ h)
      · simp only [h1, h2, if_false, List.mem_cons] at hx
        rcases hx with h | h
        · exact Or.inr (h ▸ List.mem_cons_self _ _)
        · rcases ih h with h3 | h3
          · exact Or.inl h3
          · exact Or.inr (List.mem_cons_of_mem _ h3)

theorem HandleMap.mem_erase {α : Type} (m : HandleMap α) (k : Nat) (x : Nat × α)
    (hx : x ∈ HandleMap.erase m k) : x ∈ m := by
  induction m with
  | nil => simp [HandleMap.erase] at hx
  | cons e rest ih =>
    obtain ⟨k0, v0⟩ := e
    unfold HandleMap.erase at hx
    by_cases h : k = k0
    · simp only [h, if_true] at hx
      exact List.mem_cons_of_mem _ (ih (h ▸ hx))
    · simp only [h, if_false, List.mem_cons] at hx
      rcases hx with h1 | h1
      · exact h1 ▸ List.mem_cons_self _ _
      · exact List.mem_cons_of_mem _ (ih h1)

theorem HandleMap.find_erase_ne {α : Type} (m : HandleMap α) (k k' : Nat) (h : k' ≠ k) :
    HandleMap.find (HandleMap.erase m k) k' = HandleMap.find m k' := by
  induction m with
  | nil => simp [HandleMap.erase, HandleMap.find]
  | cons e rest ih =>
    obtain ⟨k0, v0⟩ := e
    unfold HandleMap.erase
    by_cases h1 : k = k0
    · subst h1
      simp only [if_true, HandleMap.find, h, if_false, ih]
    · simp only [h1, if_false, HandleMap.find, ih]

theorem HandleMap.find_mem {α : Type} (m : HandleMap α) (k : Nat) (v : α)
    (h : HandleMap.find m k = some v) : (k, v) ∈ m := by
  induction m with
  | nil => simp [HandleMap.find] at h
  | cons e rest ih =>
    obtain ⟨k0, v0⟩ := e
    unfold HandleMap.find at h
    by_cases h1 : k = k0
    · simp only [h1, if_true, Option.some.injEq] at h
      rw [h1, h]
      exact List.mem_cons_self _ _
    · simp only [h1, if_false] at h
      exact List.mem_cons_of_mem _ (ih h)

theorem HandleMap.contains_insert_or_assign {α : Type} (m : HandleMap α) (k k' : Nat) (v : α) :
    HandleMap.contains (HandleMap.insert_or_assign m k v) k' =
      (decide (k' = k) || HandleMap.contains m k') := by
  by_cases h : k' = k
  · subst h
    simp [HandleMap.contains, HandleMap.find_insert_or_assign_self]
  · simp [HandleMap.contains, HandleMap.find_insert_or_assign_ne m k k' v h, h]

theorem HandleMap.contains_erase_ne {α : Type} (m : HandleMap α) (k k' : Nat) (h : k' ≠ k) :
    HandleMap.contains (HandleMap.erase m k) k' = HandleMap.contains m k' := by
  simp [HandleMap.contains, HandleMap.find_erase_ne m k k' h]

theorem XR_FAILED_iff (result : XrResult) :
    XR_FAILED result = true ↔ XR_SUCCEEDED result = false := by
  simp [XR_FAILED, XR_SUCCEEDED]

/-! ## Lemmas on the entry points that touch the swapchain table -/

theorem importLoop_appends (d3d11Images : List Nat) (importTexture : Nat → Option Nat) :
    ∀ (n i : Nat) (textures images : List Nat),
      ∃ added : List Nat, added.length ≤ n ∧
        (OpenXrLayer.importLoop d3d11Images importTexture n i textures images).2.1 =
          textures ++ added ∧
        (OpenXrLayer.importLoop d3d11Images importTexture n i textures images).2.2 =
          images ++ added ∧
        ((OpenXrLayer.importLoop d3d11Images importTexture n i textures images).1 = true →
          added.length = n) := by
  intro n
  induction n with
  | zero =>
    intro i textures images
    exact ⟨[], by simp, by simp [OpenXrLayer.importLoop], by simp [OpenXrLayer.importLoop],
      fun _ => rfl⟩
  | succ n ih =>
    intro i textures images
    unfold OpenXrLayer.importLoop
    cases hget : d3d11Images[i]? with
    | none => exact ⟨[], by simp, by simp, by simp, fun h => by simp at h⟩
    | some texture =>
      cases himp : importTexture texture with
      | none =>
        simp only [himp]
        exact ⟨[], by simp, by simp, by simp, fun h => by simp at h⟩
      | some d3d12Resource =>
        simp only [himp]
        obtain ⟨added, hlen, ht, hi, hc⟩ :=
          ih (i + 1) (textures ++ [d3d12Resource]) (images ++ [d3d12Resource])
        refine ⟨d3d12Resource :: added, by simp; omega, ?_, ?_, ?_⟩
        · simp only [ht]
          simp
        · simp only [hi]
          simp
        · intro h
          simp only [List.length_cons, hc h]

/-- What `xrEnumerateSwapchainImages` does for a handled swapchain, a nonzero capacity
and a successful forwarded call. -/
theorem xrEnumerateSwapchainImages_handled (L : OpenXrLayer) (swapchain : Nat)
    (state : Swapchain) (K : Nat) (env : EnumerateEnv)
    (hfind : L.m_swapchains.find swapchain = some state) (hK : K ≠ 0)
    (hres : XR_SUCCEEDED env.result = true) :
    ∃ (completed : Bool) (added : List Nat), added.length ≤ env.imageCountOutput ∧
      (completed = true → added.length = env.imageCountOutput) ∧
      L.xrEnumerateSwapchainImages swapchain K env =
        (if completed then .returned env.result else .threw,
         { L with
             m_sessions := L.m_sessions.index state.xrSession ({} : Session),
             m_swapchains := L.m_swapchains.insert_or_assign swapchain
               { state with textures := state.textures ++ added } },
         added) := by
  have hc : HandleMap.contains L.m_swapchains swapchain = true := by
    simp [HandleMap.contains, hfind]
  have hK1 : (K == 0) = false := by simpa using hK
  obtain ⟨added, hlen, ht, hi, hcomp⟩ := importLoop_appends (List.take K env.d3d11Images)
    env.importTexture env.imageCountOutput 0 state.textures []
  refine ⟨(OpenXrLayer.importLoop (List.take K env.d3d11Images) env.importTexture
    env.imageCountOutput 0 state.textures []).1, added, hlen, hcomp, ?_⟩
  unfold OpenXrLayer.xrEnumerateSwapchainImages
  simp only [OpenXrLayer.isSwapchainHandled, hc, Bool.not_true, hK1, Bool.or_self,
    Bool.false_eq_true, if_false, hres, if_true, HandleMap.index_of_contains _ _ _ hc,
    HandleMap.ref, hfind, Option.getD_some, ht, hi, List.nil_append]

theorem xrEnumerateSwapchainImages_forward (L : OpenXrLayer) (swapchain : Nat) (K : Nat)
    (env : EnumerateEnv)
    (h : L.isSwapchainHandled swapchain = false ∨ K = 0 ∨ XR_SUCCEEDED env.result = false) :
    L.xrEnumerateSwapchainImages swapchain K env = (.returned env.result, L, []) := by
  unfold OpenXrLayer.xrEnumerateSwapchainImages
  rcases h with h | h | h
  · simp [h]
  · simp [h]
  · by_cases h1 : (!L.isSwapchainHandled swapchain || K == 0) = true
    · simp only [h1, if_true]
    · simp only [h1, if_false, h, Bool.false_eq_true]

/-- What `xrDestroySession` does for a handled session when the forwarded destroy
succeeds and `SetEventOnCompletion` fails. -/
theorem xrDestroySession_threw (L : OpenXrLayer) (session : Nat) (record : Session)
    (env : DestroyEnv) (hfind : L.m_sessions.find session = some record)
    (hres : XR_SUCCEEDED env.result = true) (hset : env.setEventOk = false) :
    (L.xrDestroySession session env).1 = .threw ∧
    (L.xrDestroySession session env).2.1 =
      { L with m_sessions := L.m_sessions.insert_or_assign session
                  { record with fenceValue := (record.fenceValue + 1) % 2 ^ 64 } } := by
  have hc : HandleMap.contains L.m_sessions session = true := by
    simp [HandleMap.contains, hfind]
  unfold OpenXrLayer.xrDestroySession OpenXrLayer.cleanupSession
  simp only [OpenXrLayer.isSessionHandled, hc, hres, Bool.and_self, if_true,
    HandleMap.index_of_contains _ _ _ hc, HandleMap.ref, hfind, Option.getD_some, hset,
    Bool.not_false]
  constructor <;> trivial

theorem xrDestroySession_forward (L : OpenXrLayer) (session : Nat) (env : DestroyEnv)
    (h : XR_SUCCEEDED env.result = false ∨ L.isSessionHandled session = false) :
    L.xrDestroySession session env =
      (.returned env.result, L, [Call.next_xrDestroySession session]) := by
  unfold OpenXrLayer.xrDestroySession
  rcases h with h | h <;> simp [h]

theorem xrEndFrame_forward (L : OpenXrLayer) (session : Nat) (env : FrameEnv)
    (h : L.isSessionHandled session = false) :
    L.xrEndFrame session env = (.returned env.result, L, [Call.next_xrEndFrame session]) := by
  unfold OpenXrLayer.xrEndFrame
  simp [h]

/-! ## Referential integrity is kept by every entry point -/

theorem consistent_of_tables (L L1 : OpenXrLayer) (hc : TablesConsistent L)
    (hs : L1.m_sessions = L.m_sessions) (hw : L1.m_swapchains = L.m_swapchains) :
    TablesConsistent L1 := by
  unfold TablesConsistent at hc ⊢
  rw [hs, hw]
  exact hc

theorem consistent_insert_session (L L1 : OpenXrLayer) (session : Nat) (record : Session)
    (hc : TablesConsistent L) (hrec : record.xrSession = session)
    (hs : L1.m_sessions = L.m_sessions.insert_or_assign session record)
    (hw : L1.m_swapchains = L.m_swapchains) : TablesConsistent L1 := by
  unfold TablesConsistent at hc ⊢
  rw [hs, hw]
  refine ⟨fun it hit => ?_, fun it hit => ?_⟩
  · rw [HandleMap.contains_insert_or_assign, hc.1 it hit, Bool.or_true]
  · rcases HandleMap.mem_insert_or_assign _ _ _ _ hit with h | h
    · rw [h]
      exact hrec
    · exact hc.2 it h

theorem consistent_insert_swapchain (L L1 : OpenXrLayer) (swapchain : Nat) (state : Swapchain)
    (hc : TablesConsistent L) (hown : L.m_sessions.contains state.xrSession = true)
    (hs : L1.m_sessions = L.m_sessions)
    (hw : L1.m_swapchains = L.m_swapchains.insert_or_assign swapchain state) :
    TablesConsistent L1 := by
  unfold TablesConsistent at hc ⊢
  rw [hs, hw]
  refine ⟨fun it hit => ?_, hc.2⟩
  rcases HandleMap.mem_insert_or_assign _ _ _ _ hit with h | h
  · rw [h]
    exact hown
  · exact hc.1 it h

theorem consistent_record_key (L : OpenXrLayer) (session : Nat) (record : Session)
    (hc : TablesConsistent L) (hfind : L.m_sessions.find session = some record) :
    record.xrSession = session :=
  hc.2 (session, record) (HandleMap.find_mem _ _ _ hfind)

theorem consistent_owner_found (L : OpenXrLayer) (swapchain : Nat) (state : Swapchain)
    (hc : TablesConsistent L) (hfind : L.m_swapchains.find swapchain = some state) :
    L.m_sessions.contains state.xrSession = true :=
  hc.1 (swapchain, state) (HandleMap.find_mem _ _ _ hfind)

theorem xrDestroySession_consistent (L : OpenXrLayer) (session : Nat) (env : DestroyEnv)
    (hc : TablesConsistent L) : TablesConsistent (L.xrDestroySession session env).2.1 := by
  cases hres : XR_SUCCEEDED env.result with
  | false => rw [xrDestroySession_forward L session env (Or.inl hres)]; exact hc
  | true =>
    cases hh : L.isSessionHandled session with
    | false => rw [xrDestroySession_forward L session env (Or.inr hh)]; exact hc
    | true =>
      obtain ⟨record, hfind⟩ := HandleMap.find_of_contains _ _ hh
      have hkey := consistent_record_key L session record hc hfind
      cases hset : env.setEventOk with
      | false =>
        rw [(xrDestroySession_threw L session record env hfind hres hset).2]
        exact consistent_insert_session L _ session
          { record with fenceValue := (record.fenceValue + 1) % 2 ^ 64 } hc hkey rfl rfl
      | true =>
        rw [xrDestroySession_handled L session record env hfind hres hset]
        unfold TablesConsistent at hc ⊢
        refine ⟨fun it hit => ?_, fun it hit => hc.2 it (HandleMap.mem_erase _ _ _ hit)⟩
        have hit1 : it ∈ L.m_swapchains.filter
            (fun it => !(it.2.xrSession == record.xrSession)) := hit
        rw [List.mem_filter] at hit1
        obtain ⟨hmem, hne⟩ := hit1
        have hne1 : it.2.xrSession ≠ session := by
          rw [hkey] at hne
          simpa using hne
        show HandleMap.contains (HandleMap.erase L.m_sessions session) it.2.xrSession = true
        rw [HandleMap.contains_erase_ne _ _ _ hne1]
        exact hc.1 it hmem

theorem xrEndFrame_consistent (L : OpenXrLayer) (session : Nat) (env : FrameEnv)
    (hc : TablesConsistent L) : TablesConsistent (L.xrEndFrame session env).2.1 := by
  cases hh : L.isSessionHandled session with
  | false => rw [xrEndFrame_forward L session env hh]; exact hc
  | true =>
    obtain ⟨record, hfind⟩ := HandleMap.find_of_contains _ _ hh
    rw [xrEndFrame_handled L session record env hfind]
    exact consistent_insert_session L _ session
      { record with fenceValue := (record.fenceValue + 1) % 2 ^ 64 } hc
      (consistent_record_key L session record hc hfind) rfl rfl

theorem xrCreateSwapchain_consistent (L : OpenXrLayer) (session createInfo : Nat)
    (result : XrResult) (swapchain : Nat) (hc : TablesConsistent L) :
    TablesConsistent (L.xrCreateSwapchain session createInfo result swapchain).2 := by
  unfold OpenXrLayer.xrCreateSwapchain
  by_cases h : (XR_SUCCEEDED result && L.isSessionHandled session) = true
  · simp only [Bool.and_eq_true] at h
    obtain ⟨hs, hh⟩ := h
    simp only [hs, hh, Bool.and_self, if_true]
    exact consistent_insert_swapchain L _ swapchain ⟨swapchain, createInfo, session, []⟩ hc hh
      rfl rfl
  · simp only [h, Bool.false_eq_true, if_false]
    exact hc

theorem xrDestroySwapchain_consistent (L : OpenXrLayer) (swapchain : Nat) (result : XrResult)
    (hc : TablesConsistent L) : TablesConsistent (L.xrDestroySwapchain swapchain result).2 := by
  unfold OpenXrLayer.xrDestroySwapchain
  by_cases h : (XR_SUCCEEDED result && L.isSwapchainHandled swapchain) = true
  · simp only [h, if_true]
    unfold TablesConsistent at hc ⊢
    exact ⟨fun it hit => hc.1 it (HandleMap.mem_erase _ _ _ hit), hc.2⟩
  · simp only [h, Bool.false_eq_true, if_false]
    exact hc

theorem xrEnumerateSwapchainImages_consistent (L : OpenXrLayer) (swapchain K : Nat)
    (env : EnumerateEnv) (hc : TablesConsistent L) :
    TablesConsistent (L.xrEnumerateSwapchainImages swapchain K env).2.1 ∧
    (L.xrEnumerateSwapchainImages swapchain K env).2.1.m_sessions = L.m_sessions := by
  cases hh : L.isSwapchainHandled swapchain with
  | false =>
    rw [xrEnumerateSwapchainImages_forward L swapchain K env (Or.inl hh)]
    exact ⟨hc, rfl⟩
  | true =>
    by_cases hK : K = 0
    · rw [xrEnumerateSwapchainImages_forward L swapchain K env (Or.inr (Or.inl hK))]
      exact ⟨hc, rfl⟩
    · cases hres : XR_SUCCEEDED env.result with
      | false =>
        rw [xrEnumerateSwapchainImages_forward L swapchain K env (Or.inr (Or.inr hres))]
        exact ⟨hc, rfl⟩
      | true =>
        obtain ⟨state, hfind⟩ := HandleMap.find_of_contains _ _ hh
        obtain ⟨completed, added, -, -, heq⟩ :=
          xrEnumerateSwapchainImages_handled L swapchain state K env hfind hK hres
        have hown := consistent_owner_found L swapchain state hc hfind
        rw [heq]
        have hidx : L.m_sessions.index state.xrSession ({} : Session) = L.m_sessions :=
          HandleMap.index_of_contains _ _ _ hown
        exact ⟨consistent_insert_swapchain L _ swapchain
          { state with textures := state.textures ++ added } hc hown hidx rfl, hidx⟩

theorem xrCreateSession_consistent (L : OpenXrLayer) (fuel : Nat)
    (createInfo : XrSessionCreateInfo) (app : HandleMap XrBaseInStructure) (env : SessionEnv)
    (r : CreateSessionResult) (hr : L.xrCreateSession fuel createInfo app env = some r)
    (hc : TablesConsistent L) : TablesConsistent r.layer := by
  obtain ⟨-, -, hw, hs, -⟩ := xrCreateSession_layer_fields L fuel createInfo app env r hr
  rcases hs with hs | ⟨record, hrec, hs⟩
  · exact consistent_of_tables L _ hc hs hw
  · exact consistent_insert_session L _ env.session record hc hrec hs hw

theorem xrGetSystem_tables (L : OpenXrLayer) (formFactor : Nat) (env : SystemEnv) :
    (L.xrGetSystem formFactor env).2.m_sessions = L.m_sessions ∧
    (L.xrGetSystem formFactor env).2.m_swapchains = L.m_swapchains := by
  rcases xrGetSystem_cases L formFactor env with ⟨h, -⟩ | ⟨h, -⟩ | ⟨h, -⟩ <;> rw [h] <;>
    exact ⟨rfl, rfl⟩

theorem applyOp_consistent (fuel : Nat) (L L1 : OpenXrLayer) (op : Op)
    (h : applyOp fuel L op = some L1) (hc : TablesConsistent L) : TablesConsistent L1 := by
  cases op with
  | getSystem formFactor env =>
    simp only [applyOp, Option.some.injEq] at h
    rw [← h]
    exact consistent_of_tables L _ hc (xrGetSystem_tables L formFactor env).1
      (xrGetSystem_tables L formFactor env).2
  | createSession createInfo app env =>
    simp only [applyOp, Option.map_eq_some'] at h
    obtain ⟨r, hr, hl⟩ := h
    rw [← hl]
    exact xrCreateSession_consistent L fuel createInfo app env r hr hc
  | destroySession session env =>
    simp only [applyOp, Option.some.injEq] at h
    rw [← h]
    exact xrDestroySession_consistent L session env hc
  | createSwapchain session createInfo result swapchain =>
    simp only [applyOp, Option.some.injEq] at h
    rw [← h]
    exact xrCreateSwapchain_consistent L session createInfo result swapchain hc
  | destroySwapchain swapchain result =>
    simp only [applyOp, Option.some.injEq] at h
    rw [← h]
    exact xrDestroySwapchain_consistent L swapchain result hc
  | enumerateSwapchainImages swapchain K env =>
    simp only [applyOp, Option.some.injEq] at h
    rw [← h]
    exact (xrEnumerateSwapchainImages_consistent L swapchain K env hc).1
  | endFrame session env =>
    simp only [applyOp, Option.some.injEq] at h
    rw [← h]
    exact xrEndFrame_consistent L session env hc

theorem runOps_consistent (fuel : Nat) (ops : List Op) :
    ∀ (L0 L : OpenXrLayer), runOps fuel L0 ops = some L → TablesConsistent L0 →
      TablesConsistent L := by
  induction ops with
  | nil =>
    intro L0 L h hc
    simp only [runOps, Option.some.injEq] at h
    rw [← h]
    exact hc
  | cons op rest ih =>
    intro L0 L h hc
    simp only [runOps] at h
    cases h1 : applyOp fuel L0 op with
    | none => simp [h1] at h
    | some L1 =>
      simp only [h1] at h
      exact ih L1 L h (applyOp_consistent fuel L0 L1 op h1 hc)

theorem consistent_of_empty (L0 : OpenXrLayer) (hs : L0.m_sessions = [])
    (hw : L0.m_swapchains = []) : TablesConsistent L0 := by
  unfold TablesConsistent
  rw [hs, hw]
  exact ⟨fun it hit => absurd hit (List.not_mem_nil it),
    fun it hit => absurd hit (List.not_mem_nil it)⟩

/-! ## Session teardown and the swapchain table (C12) -/

/-- C12: in every state of the tables reached from empty tables by a sequence of
intercepted calls, for every handled session `s`, an `xrDestroySession(s)` that
returns the forwarded success code removes the record of `s` from the session table
and leaves every other session record as it was, and it removes from the swapchain
table exactly the records whose owning session is `s`: the table afterwards is the
table before without those records, the others unchanged and in the same order. -/
theorem C12_destroy_removes_owned_swapchains (fuel : Nat) (L0 L : OpenXrLayer)
    (ops : List Op) (session : Nat) (env : DestroyEnv)
    (hs : L0.m_sessions = []) (hw : L0.m_swapchains = [])
    (hrun : runOps fuel L0 ops = some L)
    (hh : L.isSessionHandled session = true)
    (hres : XR_SUCCEEDED env.result = true)
    (hret : (L.xrDestroySession session env).1 = .returned env.result) :
    (L.xrDestroySession session env).2.1.m_sessions = L.m_sessions.erase session ∧
    (L.xrDestroySession session env).2.1.m_sessions.find session = none ∧
    (∀ k, k ≠ session →
      (L.xrDestroySession session env).2.1.m_sessions.find k = L.m_sessions.find k) ∧
    (L.xrDestroySession session env).2.1.m_swapchains =
      L.m_swapchains.filter (fun it => it.2.xrSession != session) ∧
    (∀ it, it ∈ (L.xrDestroySession session env).2.1.m_swapchains ↔
      (it ∈ L.m_swapchains ∧ it.2.xrSession ≠ session)) := by
  have hc := runOps_consistent fuel ops L0 L hrun (consistent_of_empty L0 hs hw)
  obtain ⟨record, hfind⟩ := HandleMap.find_of_contains _ _ hh
  have hkey := consistent_record_key L session record hc hfind
  have hset : env.setEventOk = true := by
    cases h : env.setEventOk
    · rw [(xrDestroySession_threw L session record env hfind hres h).1] at hret
      cases hret
    · rfl
  rw [xrDestroySession_handled L session record env hfind hres hset, hkey]
  refine ⟨rfl, HandleMap.find_erase_self _ _, fun k hk => HandleMap.find_erase_ne _ _ _ hk,
    rfl, fun it => ?_⟩
  show it ∈ L.m_swapchains.filter (fun it => !(it.2.xrSession == session)) ↔ _
  rw [List.mem_filter]
  simp

/-- An instance of C12: with the sessions `100` and `200` owning the swapchains `3`
and `4`, destroying `100` leaves the session `200` and the swapchain `4`. -/
theorem C12_destroy_removes_owned_swapchains_witness :
    (sampleTwoSessions.xrDestroySession 100 sampleDestroyEnv).2.1.m_sessions =
      sampleTwoSessions.m_sessions.erase 100 ∧
    (sampleTwoSessions.xrDestroySession 100 sampleDestroyEnv).2.1.m_sessions.find 100 = none ∧
    (∀ k, k ≠ 100 →
      (sampleTwoSessions.xrDestroySession 100 sampleDestroyEnv).2.1.m_sessions.find k =
        sampleTwoSessions.m_sessions.find k) ∧
    (sampleTwoSessions.xrDestroySession 100 sampleDestroyEnv).2.1.m_swapchains =
      sampleTwoSessions.m_swapchains.filter (fun it => it.2.xrSession != 100) ∧
    (∀ it, it ∈ (sampleTwoSessions.xrDestroySession 100 sampleDestroyEnv).2.1.m_swapchains ↔
      (it ∈ sampleTwoSessions.m_swapchains ∧ it.2.xrSession ≠ 100)) :=
  C12_destroy_removes_owned_swapchains 5 sampleLayer sampleTwoSessions sampleOps 100
    sampleDestroyEnv (by decide) (by decide) (by decide) (by decide) (by decide) (by decide)

/-! ## Referential integrity of the two tables (C16) -/

/-- C16: in every state reached from empty tables by any sequence of
`xrCreateSession`, `xrDestroySession`, `xrCreateSwapchain`, `xrDestroySwapchain`,
`xrEnumerateSwapchainImages` and `xrEndFrame` calls (and `xrGetSystem` calls), with
arbitrary answers of the platform and of the next handler, every record of the
swapchain table names an owning session that has a record in the session table; so
for a handled swapchain the lookups `m_swapchains[swapchain]` and
`m_sessions[swapchainState.xrSession]` of `xrEnumerateSwapchainImages` find an
existing record and insert nothing, and the call leaves the session table as it
was. -/
theorem C16_referential_integrity (fuel : Nat) (L0 L : OpenXrLayer) (ops : List Op)
    (hs : L0.m_sessions = []) (hw : L0.m_swapchains = [])
    (hrun : runOps fuel L0 ops = some L) :
    (∀ it ∈ L.m_swapchains, L.isSessionHandled it.2.xrSession = true) ∧
    (∀ (swapchain K : Nat) (env : EnumerateEnv), L.isSwapchainHandled swapchain = true →
      L.m_swapchains.index swapchain ({} : Swapchain) = L.m_swapchains ∧
      L.m_sessions.index (L.m_swapchains.ref swapchain ({} : Swapchain)).xrSession
        ({} : Session) = L.m_sessions ∧
      (L.xrEnumerateSwapchainImages swapchain K env).2.1.m_sessions = L.m_sessions) := by
  have hc := runOps_consistent fuel ops L0 L hrun (consistent_of_empty L0 hs hw)
  refine ⟨hc.1, fun swapchain K env hh => ?_⟩
  obtain ⟨state, hfind⟩ := HandleMap.find_of_contains _ _ hh
  have hown := consistent_owner_found L swapchain state hc hfind
  refine ⟨HandleMap.index_of_contains _ _ _ hh, ?_,
    (xrEnumerateSwapchainImages_consistent L swapchain K env hc).2⟩
  simp only [HandleMap.ref, hfind, Option.getD_some]
  exact HandleMap.index_of_contains _ _ _ hown

/-- An instance of C16: the state reached by creating two sessions and a swapchain
for each. -/
theorem C16_referential_integrity_witness :
    (∀ it ∈ sampleTwoSessions.m_swapchains,
      sampleTwoSessions.isSessionHandled it.2.xrSession = true) ∧
    (∀ (swapchain K : Nat) (env : EnumerateEnv),
      sampleTwoSessions.isSwapchainHandled swapchain = true →
      sampleTwoSessions.m_swapchains.index swapchain ({} : Swapchain) =
        sampleTwoSessions.m_swapchains ∧
      sampleTwoSessions.m_sessions.index
        (sampleTwoSessions.m_swapchains.ref swapchain ({} : Swapchain)).xrSession
        ({} : Session) = sampleTwoSessions.m_sessions ∧
      (sampleTwoSessions.xrEnumerateSwapchainImages swapchain K env).2.1.m_sessions =
        sampleTwoSessions.m_sessions) :=
  C16_referential_integrity 5 sampleLayer sampleTwoSessions sampleOps (by decide) (by decide)
    (by decide)

/-! ## Repeated image enumeration (C11) -/

theorem enumerateAll_appends (swapchain : Nat) (calls : List (Nat × EnumerateEnv)) :
    ∀ (L : OpenXrLayer) (state : Swapchain),
      L.m_swapchains.find swapchain = some state →
      (∀ o ∈ (enumerateAll L swapchain calls).2, o.succeeded = true) →
      ∃ added : List Nat,
        (enumerateAll L swapchain calls).1.m_swapchains.find swapchain =
          some { state with textures := state.textures ++ added } ∧
        added.length = reportedTotal calls := by
  induction calls with
  | nil =>
    intro L state hfind _
    exact ⟨[], by simpa [enumerateAll] using hfind, rfl⟩
  | cons call rest ih =>
    intro L state hfind hok
    obtain ⟨K, env⟩ := call
    have hc : L.isSwapchainHandled swapchain = true := by
      simp [OpenXrLayer.isSwapchainHandled, HandleMap.contains, hfind]
    have hfirst : (L.xrEnumerateSwapchainImages swapchain K env).1.succeeded = true :=
      hok _ (List.mem_cons_self _ _)
    have hrest : ∀ o ∈ (enumerateAll (L.xrEnumerateSwapchainImages swapchain K env).2.1
        swapchain rest).2, o.succeeded = true :=
      fun o ho => hok o (List.mem_cons_of_mem _ ho)
    by_cases hK : K = 0
    · have hfw := xrEnumerateSwapchainImages_forward L swapchain K env (Or.inr (Or.inl hK))
      rw [hfw] at hrest
      obtain ⟨added, h1, h2⟩ := ih L state hfind hrest
      refine ⟨added, ?_, ?_⟩
      · simp only [enumerateAll, hfw]
        exact h1
      · simp only [reportedTotal, hK, if_true, Nat.zero_add]
        exact h2
    · cases hres : XR_SUCCEEDED env.result with
      | false =>
        rw [xrEnumerateSwapchainImages_forward L swapchain K env (Or.inr (Or.inr hres))]
          at hfirst
        simp [Outcome.succeeded, hres] at hfirst
      | true =>
        obtain ⟨completed, added, -, hcomp, heq⟩ :=
          xrEnumerateSwapchainImages_handled L swapchain state K env hfind hK hres
        rw [heq] at hfirst hrest
        have hcompleted : completed = true := by
          cases completed
          · simp [Outcome.succeeded] at hfirst
          · rfl
        obtain ⟨added1, h1, h2⟩ := ih _ { state with textures := state.textures ++ added }
          (HandleMap.find_insert_or_assign_self _ _ _) hrest
        refine ⟨added ++ added1, ?_, ?_⟩
        · simp only [enumerateAll, heq]
          rw [h1]
          simp
        · simp only [reportedTotal, hK, if_false, List.length_append, h2, hcomp hcompleted]

/-- C11, as stated, fails: on the swapchain `3`, whose list is empty, a count query
followed by two successful calls with capacity `2`, the runtime reporting two images
each time, imports twice: the list ends with four entries, the two imports twice,
where the runtime reports two images. -/
theorem C11_counterexample_second_enumeration :
    (enumerateAll sampleWithSwapchain 3
        [(0, sampleEnumerateEnv), (2, sampleEnumerateEnv), (2, sampleEnumerateEnv)]).2 =
      [.returned 0, .returned 0, .returned 0] ∧
    texturesOf (enumerateAll sampleWithSwapchain 3
        [(0, sampleEnumerateEnv), (2, sampleEnumerateEnv)]).1 3 = some [110, 111] ∧
    texturesOf (enumerateAll sampleWithSwapchain 3
        [(0, sampleEnumerateEnv), (2, sampleEnumerateEnv), (2, sampleEnumerateEnv)]).1 3 =
      some [110, 111, 110, 111] ∧
    sampleEnumerateEnv.imageCountOutput = 2 := by
  decide

/-- C11, amended: for every handled swapchain and every sequence of successful
`xrEnumerateSwapchainImages` calls on it, entries already in the imported-resource
list are never changed by a later call: the list afterwards is the list before
followed by new entries; and the number of new entries is the sum of the image counts
reported to the calls with a nonzero capacity. So the length equals the reported image
count after the first call with a nonzero capacity on a swapchain whose list was
empty, and every further such call imports again and appends as many entries again. -/
theorem C11_enumeration_appends (L : OpenXrLayer) (swapchain : Nat) (state : Swapchain)
    (calls : List (Nat × EnumerateEnv))
    (hfind : L.m_swapchains.find swapchain = some state)
    (hok : ∀ o ∈ (enumerateAll L swapchain calls).2, o.succeeded = true) :
    ∃ added : List Nat,
      texturesOf (enumerateAll L swapchain calls).1 swapchain =
        some (state.textures ++ added) ∧
      added.length = reportedTotal calls := by
  obtain ⟨added, h1, h2⟩ := enumerateAll_appends swapchain calls L state hfind hok
  exact ⟨added, by rw [texturesOf, h1]; rfl, h2⟩

/-- An instance of the amended C11: a count query and one call with capacity `2` on the
swapchain `3`, whose list was empty. -/
theorem C11_enumeration_appends_witness :
    ∃ added : List Nat,
      texturesOf (enumerateAll sampleWithSwapchain 3
          [(0, sampleEnumerateEnv), (2, sampleEnumerateEnv)]).1 3 =
        some (sampleSwapchainRecord.textures ++ added) ∧
      added.length = reportedTotal [(0, sampleEnumerateEnv), (2, sampleEnumerateEnv)] :=
  C11_enumeration_appends sampleWithSwapchain 3 sampleSwapchainRecord
    [(0, sampleEnumerateEnv), (2, sampleEnumerateEnv)] (by decide) (by decide)

/-! ## Failing calls and the data model (C13) -/

theorem xrCreateSession_failure (L : OpenXrLayer) (fuel : Nat)
    (createInfo : XrSessionCreateInfo) (app : HandleMap XrBaseInStructure) (env : SessionEnv)
    (r : CreateSessionResult)
    (hr : L.xrCreateSession fuel createInfo app env = some r)
    (hfail : r.outcome = .threw ∨ XR_SUCCEEDED env.result = false) : r.layer = L := by
  unfold OpenXrLayer.xrCreateSession at hr
  by_cases hsys : L.isSystemHandled createInfo.systemId = true
  · simp only [hsys, if_true] at hr
    cases hf : (ChainMemory.onEntry createInfo app).findD3D12Binding fuel .createInfo_next
        createInfo.next with
    | none => simp [hf] at hr
    | some res =>
      cases res with
      | none =>
        simp only [hf, Option.some.injEq] at hr
        subst hr
        rfl
      | some pe =>
        obtain ⟨pprev, entry⟩ := pe
        simp only [hf] at hr
        cases hok : env.interopOk
        · simp only [hok, Bool.not_false, if_true, Option.some.injEq] at hr
          subst hr
          rfl
        · simp only [hok, Bool.not_true, Bool.false_eq_true, if_false] at hr
          cases hload : (ChainMemory.onEntry createInfo app).load pprev with
          | none => simp [hload] at hr
          | some restoreNext =>
            simp only [hload, Option.some.injEq] at hr
            subst hr
            rcases hfail with h | h
            · cases h
            · simp only [h, Bool.false_eq_true, if_false]
  · have hsys1 : L.isSystemHandled createInfo.systemId = false := by simpa using hsys
    simp only [hsys1, Bool.false_eq_true, if_false, Option.some.injEq] at hr
    subst hr
    rfl

/-- C13, as stated, fails for three of the entry points. An `xrEndFrame` whose
forwarded call fails leaves the fence counter of the session at `1` where it was `0`.
An `xrEnumerateSwapchainImages` in which the import of the second image fails throws
and leaves the first import in the list, which was empty. An `xrDestroySession` whose
`SetEventOnCompletion` fails throws and leaves the fence counter at `1`. -/
theorem C13_counterexample_state_after_failure :
    fenceValueOf sampleCreated 100 = some 0 ∧
    (sampleCreated.xrEndFrame 100 { signalOk := true, waitOk := true, result := -1 }).1 =
      .returned (-1) ∧
    fenceValueOf
      (sampleCreated.xrEndFrame 100 { signalOk := true, waitOk := true, result := -1 }).2.1
      100 = some 1 ∧
    texturesOf sampleWithSwapchain 3 = some [] ∧
    (sampleWithSwapchain.xrEnumerateSwapchainImages 3 2 sampleEnumerateEnvFailingImport).1 =
      .threw ∧
    texturesOf
      (sampleWithSwapchain.xrEnumerateSwapchainImages 3 2 sampleEnumerateEnvFailingImport).2.1
      3 = some [110] ∧
    (sampleCreated.xrDestroySession 100 { result := 0, setEventOk := false }).1 = .threw ∧
    fenceValueOf (sampleCreated.xrDestroySession 100 { result := 0, setEventOk := false }).2.1
      100 = some 1 := by
  decide

/-- C13, amended. When the forwarded call returns a failure, `xrCreateSession`,
`xrDestroySession`, `xrCreateSwapchain`, `xrDestroySwapchain` and
`xrEnumerateSwapchainImages` leave the layer, so the whole data model, exactly as it
was; so does `xrCreateSession` when one of its native steps fails. `xrEndFrame`,
however it ends, leaves the swapchain table and every other session record as they
were; for an unhandled session it leaves the layer as it was, and for a handled
session it changes the fence counter of that session only, which stays incremented. -/
theorem C13_failure_leaves_data_model :
    (∀ (L : OpenXrLayer) (fuel : Nat) (createInfo : XrSessionCreateInfo)
        (app : HandleMap XrBaseInStructure) (env : SessionEnv) (r : CreateSessionResult),
      L.xrCreateSession fuel createInfo app env = some r →
      (r.outcome = .threw ∨ XR_FAILED env.result = true) → r.layer = L) ∧
    (∀ (L : OpenXrLayer) (session : Nat) (env : DestroyEnv),
      XR_FAILED env.result = true →
      (L.xrDestroySession session env).1 = .returned env.result ∧
      (L.xrDestroySession session env).2.1 = L) ∧
    (∀ (L : OpenXrLayer) (session createInfo : Nat) (result : XrResult) (swapchain : Nat),
      XR_FAILED result = true →
      L.xrCreateSwapchain session createInfo result swapchain = (result, L)) ∧
    (∀ (L : OpenXrLayer) (swapchain : Nat) (result : XrResult),
      XR_FAILED result = true → L.xrDestroySwapchain swapchain result = (result, L)) ∧
    (∀ (L : OpenXrLayer) (swapchain K : Nat) (env : EnumerateEnv),
      XR_FAILED env.result = true →
      L.xrEnumerateSwapchainImages swapchain K env = (.returned env.result, L, [])) ∧
    (∀ (L : OpenXrLayer) (session : Nat) (env : FrameEnv),
      (L.xrEndFrame session env).2.1.m_swapchains = L.m_swapchains ∧
      (∀ k, k ≠ session →
        (L.xrEndFrame session env).2.1.m_sessions.find k = L.m_sessions.find k) ∧
      (L.isSessionHandled session = false → (L.xrEndFrame session env).2.1 = L) ∧
      (∀ record, L.m_sessions.find session = some record →
        (L.xrEndFrame session env).2.1.m_sessions.find session =
          some { record with fenceValue := (record.fenceValue + 1) % 2 ^ 64 })) := by
  refine ⟨?_, ?_, ?_, ?_, ?_, ?_⟩
  · intro L fuel createInfo app env r hr hfail
    refine xrCreateSession_failure L fuel createInfo app env r hr ?_
    rcases hfail with h | h
    · exact Or.inl h
    · exact Or.inr ((XR_FAILED_iff _).mp h)
  · intro L session env hfail
    rw [xrDestroySession_forward L session env (Or.inl ((XR_FAILED_iff _).mp hfail))]
    exact ⟨rfl, rfl⟩
  · intro L session createInfo result swapchain hfail
    simp [OpenXrLayer.xrCreateSwapchain, (XR_FAILED_iff _).mp hfail]
  · intro L swapchain result hfail
    simp [OpenXrLayer.xrDestroySwapchain, (XR_FAILED_iff _).mp hfail]
  · intro L swapchain K env hfail
    exact xrEnumerateSwapchainImages_forward L swapchain K env
      (Or.inr (Or.inr ((XR_FAILED_iff _).mp hfail)))
  · intro L session env
    cases hh : L.isSessionHandled session with
    | false =>
      rw [xrEndFrame_forward L session env hh]
      refine ⟨rfl, fun _ _ => rfl, fun _ => rfl, fun record hfind => ?_⟩
      simp [OpenXrLayer.isSessionHandled, HandleMap.contains, hfind] at hh
    | true =>
      obtain ⟨record, hfind⟩ := HandleMap.find_of_contains _ _ hh
      rw [xrEndFrame_handled L session record env hfind]
      refine ⟨rfl, fun k hk => HandleMap.find_insert_or_assign_ne _ _ _ _ hk,
        (fun h => by cases h), fun record1 hfind1 => ?_⟩
      rw [hfind] at hfind1
      cases hfind1
      exact HandleMap.find_insert_or_assign_self _ _ _

/-- Instances of the amended C13: a failing forwarded `xrCreateSwapchain` and a failing
forwarded `xrDestroySession` on `sampleCreated`. -/
theorem C13_failure_leaves_data_model_witness :
    sampleCreated.xrCreateSwapchain 100 0 (-1) 3 = (-1, sampleCreated) ∧
    (sampleCreated.xrDestroySession 100 { result := -1, setEventOk := true }).1 =
      .returned (-1) ∧
    (sampleCreated.xrDestroySession 100 { result := -1, setEventOk := true }).2.1 =
      sampleCreated :=
  ⟨C13_failure_leaves_data_model.2.2.1 sampleCreated 100 0 (-1) 3 (by decide),
   C13_failure_leaves_data_model.2.1 sampleCreated 100 { result := -1, setEventOk := true }
     (by decide)⟩

end D3D12on11
